import Mathlib

/-!
# Xenia HIR: values and the validation pass

A shallow embedding of `src/xenia/cpu/hir/value.h` (the `Value` class: flags, the constant
payload union, setters, getters and constant predicates) and of
`src/xenia/cpu/compiler/passes/validation_pass.cc` (`ValidationPass::Run`,
`ValidateInstruction`, `ValidateValue`).

Conventions of the embedding.

* Arena nodes are addressed by natural numbers (`Ptr`), the null pointer being `0`.
  Pointer fields of a node hold addresses, and the builder carries one lookup function per
  node kind.
* The singly traversed chains (`first_block / next`, `label_head / next`,
  `instr_head / next`, `use_head / next`) are lists of the nodes in traversal order.
* `assert_true` / `assert_always` are the macros of `poly/assert.h`.  Whether a failed
  assertion terminates execution depends on the build and is a parameter
  (`Config.assert_aborts`): `true` is the debug configuration, `false` the configuration in
  which assertions compile to nothing.  A computation therefore yields an `Outcome`:
  either it was aborted at an assertion, or it returned a value.
* The opcode signature accessors (`GET_OPCODE_SIG_TYPE_SRCn`, `OPCODE_SIG_TYPE_V`) belong to
  `hir/opcodes.h`; the validator is parametric in them.
* The 16 byte constant union is kept as its two 64 bit halves (`low`, `high`); the narrower
  members overlay the least significant bytes of `low` (little endian layout, the only one
  the emulator targets).  Floating point comparison is a parameter (`FloatOps`) acting on
  bit patterns.
-/

namespace Xenia

/-- Arena address of a graph node; `0` is the null pointer. -/
abbrev Ptr := Nat

/-! ## Assertions and outcomes -/

/-- Result of running a piece of code that may hit an assertion. -/
inductive Outcome (α : Type) where
  | aborted : Outcome α
  | returned (value : α) : Outcome α
  deriving DecidableEq, Repr

/-- Build parameters: the behaviour of the assertion sink and the opcode signature
accessors of `hir/opcodes.h`. -/
structure Config where
  /-- Does a failed `assert_true` terminate execution (debug) or do nothing (release). -/
  assert_aborts : Bool
  GET_OPCODE_SIG_TYPE_SRC1 : Nat → Nat
  GET_OPCODE_SIG_TYPE_SRC2 : Nat → Nat
  GET_OPCODE_SIG_TYPE_SRC3 : Nat → Nat
  OPCODE_SIG_TYPE_V : Nat

/-- The statement `assert_true(expr);` followed by the code `rest`. -/
def assert_true {α : Type} (cfg : Config) (expr : Bool) (rest : Outcome α) : Outcome α :=
  if cfg.assert_aborts && !expr then Outcome.aborted else rest

/-- The statement `assert_always();` followed by the code `rest`. -/
def assert_always {α : Type} (cfg : Config) (rest : Outcome α) : Outcome α :=
  assert_true cfg false rest

/-! ## Data model -/

/-- The enum `TypeName` of value.h. -/
inductive TypeName where
  | INT8_TYPE
  | INT16_TYPE
  | INT32_TYPE
  | INT64_TYPE
  | FLOAT32_TYPE
  | FLOAT64_TYPE
  | VEC128_TYPE
  | MAX_TYPENAME
  deriving DecidableEq, Repr

/-- The enumerator values of `TypeName`. -/
def TypeName.ordinal : TypeName → Nat
  | TypeName.INT8_TYPE => 0
  | TypeName.INT16_TYPE => 1
  | TypeName.INT32_TYPE => 2
  | TypeName.INT64_TYPE => 3
  | TypeName.FLOAT32_TYPE => 4
  | TypeName.FLOAT64_TYPE => 5
  | TypeName.VEC128_TYPE => 6
  | TypeName.MAX_TYPENAME => 7

/-- `GetTypeSize(TypeName type_name)`; the default case is
`assert_unhandled_case(type_name); return 0;`. -/
def GetTypeSize (cfg : Config) (type_name : TypeName) : Outcome Nat :=
  match type_name with
  | TypeName.INT8_TYPE => Outcome.returned 1
  | TypeName.INT16_TYPE => Outcome.returned 2
  | TypeName.INT32_TYPE => Outcome.returned 4
  | TypeName.INT64_TYPE => Outcome.returned 8
  | TypeName.FLOAT32_TYPE => Outcome.returned 4
  | TypeName.FLOAT64_TYPE => Outcome.returned 8
  | TypeName.VEC128_TYPE => Outcome.returned 16
  | _ => assert_always cfg (Outcome.returned 0)

/-- Enum `ValueFlags`: `VALUE_IS_CONSTANT = (1 << 1)`. -/
def VALUE_IS_CONSTANT : Nat := 1 <<< 1

/-- Enum `ValueFlags`: `VALUE_IS_ALLOCATED = (1 << 2)`. -/
def VALUE_IS_ALLOCATED : Nat := 1 <<< 2

/-- Struct `RegAssignment`. -/
structure RegAssignment where
  set : Ptr
  index : Int
  deriving DecidableEq, Repr

/-- Struct `Value::Use`; `prev` / `next` are carried by the position in the use list. -/
structure Use where
  instr : Ptr
  deriving DecidableEq, Repr

/-- Union `Value::ConstantValue`, as the two 64 bit halves of its widest member
`v128` (`low` = bytes 0..7, `high` = bytes 8..15). -/
structure ConstantValue where
  low : Nat
  high : Nat
  deriving DecidableEq, Repr

/-- Class `Value` (data members). -/
structure Value where
  ordinal : Nat
  type : TypeName
  flags : Nat
  reg : RegAssignment
  constant : ConstantValue
  def_ : Ptr
  use_head : List Use
  last_use : Ptr
  local_slot : Ptr
  tag : Ptr
  deriving DecidableEq, Repr

/-- The part of `OpcodeInfo` the validator reads. -/
structure OpcodeInfo where
  signature : Nat
  deriving DecidableEq, Repr

/-- The part of `Instr` the validator reads (`src1..3` are the `value` members of the
operand unions). -/
structure Instr where
  block : Ptr
  opcode : OpcodeInfo
  dest : Ptr
  src1 : Ptr
  src2 : Ptr
  src3 : Ptr
  deriving DecidableEq, Repr

/-- The part of `Label` the validator reads. -/
structure Label where
  block : Ptr
  deriving DecidableEq, Repr

/-- The part of `Block` the validator reads: its label chain and its instruction chain. -/
structure Block where
  label_head : List Ptr
  instr_head : List Ptr
  deriving DecidableEq, Repr

/-- The function graph held by an `HIRBuilder`: the block chain starting at
`first_block()` and the arena contents. -/
structure HIRBuilder where
  first_block : List Ptr
  block : Ptr → Block
  label : Ptr → Label
  instr : Ptr → Instr
  value : Ptr → Value

/-! ## Value: the constant payload -/

/-- Reading a `w` bit pattern as a signed integer (the value of an `intN_t` member). -/
def asSigned (w : Nat) (bits : Nat) : Int :=
  if 2 ^ (w - 1) ≤ bits then (bits : Int) - 2 ^ w else (bits : Int)

/-- The C conversion of an integer to the unsigned `w` bit type (`(uintN_t)x`). -/
def toUnsigned (w : Nat) (x : Int) : Nat :=
  (x % 2 ^ w).toNat

/-- Storing a `w` bit pattern into the least significant `w` bits of a word; the other
bits of the word keep their content. -/
def overlay (w : Nat) (word : Nat) (bits : Nat) : Nat :=
  word / 2 ^ w * 2 ^ w + bits % 2 ^ w

/-- Member `i8` of the union. -/
def ConstantValue.i8 (c : ConstantValue) : Int := asSigned 8 (c.low % 2 ^ 8)

/-- Member `i16` of the union. -/
def ConstantValue.i16 (c : ConstantValue) : Int := asSigned 16 (c.low % 2 ^ 16)

/-- Member `i32` of the union. -/
def ConstantValue.i32 (c : ConstantValue) : Int := asSigned 32 (c.low % 2 ^ 32)

/-- Member `i64` of the union. -/
def ConstantValue.i64 (c : ConstantValue) : Int := asSigned 64 (c.low % 2 ^ 64)

/-- Member `f32` of the union, as its bit pattern. -/
def ConstantValue.f32 (c : ConstantValue) : Nat := c.low % 2 ^ 32

/-- Member `f64` of the union, as its bit pattern. -/
def ConstantValue.f64 (c : ConstantValue) : Nat := c.low % 2 ^ 64

/-- Member `v128.low` of the union. -/
def ConstantValue.v128_low (c : ConstantValue) : Nat := c.low % 2 ^ 64

/-- Member `v128.high` of the union. -/
def ConstantValue.v128_high (c : ConstantValue) : Nat := c.high % 2 ^ 64

/-- The assignment `constant.i8 = value`. -/
def ConstantValue.set_i8 (c : ConstantValue) (value : Int) : ConstantValue :=
  { c with low := overlay 8 c.low (toUnsigned 8 value) }

/-- The assignment `constant.i16 = value`. -/
def ConstantValue.set_i16 (c : ConstantValue) (value : Int) : ConstantValue :=
  { c with low := overlay 16 c.low (toUnsigned 16 value) }

/-- The assignment `constant.i32 = value`. -/
def ConstantValue.set_i32 (c : ConstantValue) (value : Int) : ConstantValue :=
  { c with low := overlay 32 c.low (toUnsigned 32 value) }

/-- The assignment `constant.i64 = value`. -/
def ConstantValue.set_i64 (c : ConstantValue) (value : Int) : ConstantValue :=
  { c with low := overlay 64 c.low (toUnsigned 64 value) }

/-- The assignment `constant.f32 = value` (value given by its bit pattern). -/
def ConstantValue.set_f32 (c : ConstantValue) (bits : Nat) : ConstantValue :=
  { c with low := overlay 32 c.low bits }

/-- The assignment `constant.f64 = value` (value given by its bit pattern). -/
def ConstantValue.set_f64 (c : ConstantValue) (bits : Nat) : ConstantValue :=
  { c with low := overlay 64 c.low bits }

/-- Floating point comparisons of the host, on bit patterns. -/
structure FloatOps where
  f32_lt : Nat → Nat → Bool
  f32_le : Nat → Nat → Bool
  f32_gt : Nat → Nat → Bool
  f32_ge : Nat → Nat → Bool
  f64_lt : Nat → Nat → Bool
  f64_le : Nat → Nat → Bool
  f64_gt : Nat → Nat → Bool
  f64_ge : Nat → Nat → Bool

/-! ## Value: getters and setters -/

namespace Value

/-- `get_constant(int8_t)`. -/
def get_constant_int8 (v : Value) : Int := v.constant.i8

/-- `get_constant(int16_t)`. -/
def get_constant_int16 (v : Value) : Int := v.constant.i16

/-- `get_constant(int32_t)`. -/
def get_constant_int32 (v : Value) : Int := v.constant.i32

/-- `get_constant(int64_t)`. -/
def get_constant_int64 (v : Value) : Int := v.constant.i64

/-- `get_constant(float)`, as a bit pattern. -/
def get_constant_float (v : Value) : Nat := v.constant.f32

/-- `get_constant(double)`, as a bit pattern. -/
def get_constant_double (v : Value) : Nat := v.constant.f64

/-- `get_constant(vec128_t&)`, as the pair (low, high). -/
def get_constant_vec128 (v : Value) : Nat × Nat := (v.constant.v128_low, v.constant.v128_high)

/-- `set_zero(TypeName type)`. -/
def set_zero (v : Value) (type : TypeName) : Value :=
  { v with
    type := type
    flags := v.flags ||| VALUE_IS_CONSTANT
    constant := { low := 0, high := 0 } }

/-- `set_constant(int8_t value)`. -/
def set_constant_int8 (v : Value) (value : Int) : Value :=
  { v with
    type := TypeName.INT8_TYPE
    flags := v.flags ||| VALUE_IS_CONSTANT
    constant := v.constant.set_i8 value }

/-- `set_constant(uint8_t value)`. -/
def set_constant_uint8 (v : Value) (value : Nat) : Value :=
  { v with
    type := TypeName.INT8_TYPE
    flags := v.flags ||| VALUE_IS_CONSTANT
    constant := v.constant.set_i8 value }

/-- `set_constant(int16_t value)`. -/
def set_constant_int16 (v : Value) (value : Int) : Value :=
  { v with
    type := TypeName.INT16_TYPE
    flags := v.flags ||| VALUE_IS_CONSTANT
    constant := v.constant.set_i16 value }

/-- `set_constant(uint16_t value)`. -/
def set_constant_uint16 (v : Value) (value : Nat) : Value :=
  { v with
    type := TypeName.INT16_TYPE
    flags := v.flags ||| VALUE_IS_CONSTANT
    constant := v.constant.set_i16 value }

/-- `set_constant(int32_t value)`. -/
def set_constant_int32 (v : Value) (value : Int) : Value :=
  { v with
    type := TypeName.INT32_TYPE
    flags := v.flags ||| VALUE_IS_CONSTANT
    constant := v.constant.set_i32 value }

/-- `set_constant(uint32_t value)`. -/
def set_constant_uint32 (v : Value) (value : Nat) : Value :=
  { v with
    type := TypeName.INT32_TYPE
    flags := v.flags ||| VALUE_IS_CONSTANT
    constant := v.constant.set_i32 value }

/-- `set_constant(int64_t value)`. -/
def set_constant_int64 (v : Value) (value : Int) : Value :=
  { v with
    type := TypeName.INT64_TYPE
    flags := v.flags ||| VALUE_IS_CONSTANT
    constant := v.constant.set_i64 value }

/-- `set_constant(uint64_t value)`. -/
def set_constant_uint64 (v : Value) (value : Nat) : Value :=
  { v with
    type := TypeName.INT64_TYPE
    flags := v.flags ||| VALUE_IS_CONSTANT
    constant := v.constant.set_i64 value }

/-- `set_constant(float value)`, the value given by its bit pattern. -/
def set_constant_float (v : Value) (bits : Nat) : Value :=
  { v with
    type := TypeName.FLOAT32_TYPE
    flags := v.flags ||| VALUE_IS_CONSTANT
    constant := v.constant.set_f32 bits }

/-- `set_constant(double value)`, the value given by its bit pattern. -/
def set_constant_double (v : Value) (bits : Nat) : Value :=
  { v with
    type := TypeName.FLOAT64_TYPE
    flags := v.flags ||| VALUE_IS_CONSTANT
    constant := v.constant.set_f64 bits }

/-- `set_constant(const vec128_t& value)`. -/
def set_constant_vec128 (v : Value) (low high : Nat) : Value :=
  { v with
    type := TypeName.VEC128_TYPE
    flags := v.flags ||| VALUE_IS_CONSTANT
    constant := { low := low % 2 ^ 64, high := high % 2 ^ 64 } }

/-- `set_from(const Value* other)`. -/
def set_from (v : Value) (other : Value) : Value :=
  { v with
    type := other.type
    flags := other.flags
    constant := other.constant }

/-- `IsConstant()`. -/
def IsConstant (v : Value) : Bool :=
  (v.flags &&& VALUE_IS_CONSTANT) != 0

/-- `IsConstantTrue()`. -/
def IsConstantTrue (cfg : Config) (v : Value) : Outcome Bool :=
  (if v.type = TypeName.VEC128_TYPE then assert_always cfg else id) <|
  Outcome.returned (((v.flags &&& VALUE_IS_CONSTANT) != 0) && (v.constant.i64 != 0))

/-- `IsConstantFalse()`. -/
def IsConstantFalse (cfg : Config) (v : Value) : Outcome Bool :=
  (if v.type = TypeName.VEC128_TYPE then assert_always cfg else id) <|
  Outcome.returned (((v.flags &&& VALUE_IS_CONSTANT) != 0) && (v.constant.i64 == 0))

/-- `IsConstantZero()`. -/
def IsConstantZero (v : Value) : Bool :=
  if v.type = TypeName.VEC128_TYPE then
    ((v.flags &&& VALUE_IS_CONSTANT) != 0) && (v.constant.v128_low == 0) &&
      (v.constant.v128_high == 0)
  else
    ((v.flags &&& VALUE_IS_CONSTANT) != 0) && (v.constant.i64 == 0)

/-- `IsConstantEQ(Value* other)`. -/
def IsConstantEQ (cfg : Config) (v other : Value) : Outcome Bool :=
  (if v.type = TypeName.VEC128_TYPE then assert_always cfg else id) <|
  Outcome.returned
    (((v.flags &&& VALUE_IS_CONSTANT) != 0) && ((other.flags &&& VALUE_IS_CONSTANT) != 0) &&
      (v.constant.i64 == other.constant.i64))

/-- `IsConstantNE(Value* other)`. -/
def IsConstantNE (cfg : Config) (v other : Value) : Outcome Bool :=
  (if v.type = TypeName.VEC128_TYPE then assert_always cfg else id) <|
  Outcome.returned
    (((v.flags &&& VALUE_IS_CONSTANT) != 0) && ((other.flags &&& VALUE_IS_CONSTANT) != 0) &&
      (v.constant.i64 != other.constant.i64))

/-- `IsConstantSLT(Value* other)`. -/
def IsConstantSLT (cfg : Config) (fops : FloatOps) (v other : Value) : Outcome Bool :=
  assert_true cfg
    (((v.flags &&& VALUE_IS_CONSTANT) != 0) && ((other.flags &&& VALUE_IS_CONSTANT) != 0)) <|
  match v.type with
  | TypeName.INT8_TYPE =>
    Outcome.returned (decide (v.constant.i8 < other.constant.i8))
  | TypeName.INT16_TYPE =>
    Outcome.returned (decide (v.constant.i16 < other.constant.i16))
  | TypeName.INT32_TYPE =>
    Outcome.returned (decide (v.constant.i32 < other.constant.i32))
  | TypeName.INT64_TYPE =>
    Outcome.returned (decide (v.constant.i64 < other.constant.i64))
  | TypeName.FLOAT32_TYPE =>
    Outcome.returned (fops.f32_lt v.constant.f32 other.constant.f32)
  | TypeName.FLOAT64_TYPE =>
    Outcome.returned (fops.f64_lt v.constant.f64 other.constant.f64)
  | _ => assert_always cfg (Outcome.returned false)

/-- `IsConstantSLE(Value* other)`. -/
def IsConstantSLE (cfg : Config) (fops : FloatOps) (v other : Value) : Outcome Bool :=
  assert_true cfg
    (((v.flags &&& VALUE_IS_CONSTANT) != 0) && ((other.flags &&& VALUE_IS_CONSTANT) != 0)) <|
  match v.type with
  | TypeName.INT8_TYPE =>
    Outcome.returned (decide (v.constant.i8 ≤ other.constant.i8))
  | TypeName.INT16_TYPE =>
    Outcome.returned (decide (v.constant.i16 ≤ other.constant.i16))
  | TypeName.INT32_TYPE =>
    Outcome.returned (decide (v.constant.i32 ≤ other.constant.i32))
  | TypeName.INT64_TYPE =>
    Outcome.returned (decide (v.constant.i64 ≤ other.constant.i64))
  | TypeName.FLOAT32_TYPE =>
    Outcome.returned (fops.f32_le v.constant.f32 other.constant.f32)
  | TypeName.FLOAT64_TYPE =>
    Outcome.returned (fops.f64_le v.constant.f64 other.constant.f64)
  | _ => assert_always cfg (Outcome.returned false)

/-- `IsConstantSGT(Value* other)`. -/
def IsConstantSGT (cfg : Config) (fops : FloatOps) (v other : Value) : Outcome Bool :=
  assert_true cfg
    (((v.flags &&& VALUE_IS_CONSTANT) != 0) && ((other.flags &&& VALUE_IS_CONSTANT) != 0)) <|
  match v.type with
  | TypeName.INT8_TYPE =>
    Outcome.returned (decide (v.constant.i8 > other.constant.i8))
  | TypeName.INT16_TYPE =>
    Outcome.returned (decide (v.constant.i16 > other.constant.i16))
  | TypeName.INT32_TYPE =>
    Outcome.returned (decide (v.constant.i32 > other.constant.i32))
  | TypeName.INT64_TYPE =>
    Outcome.returned (decide (v.constant.i64 > other.constant.i64))
  | TypeName.FLOAT32_TYPE =>
    Outcome.returned (fops.f32_gt v.constant.f32 other.constant.f32)
  | TypeName.FLOAT64_TYPE =>
    Outcome.returned (fops.f64_gt v.constant.f64 other.constant.f64)
  | _ => assert_always cfg (Outcome.returned false)

/-- `IsConstantSGE(Value* other)`. -/
def IsConstantSGE (cfg : Config) (fops : FloatOps) (v other : Value) : Outcome Bool :=
  assert_true cfg
    (((v.flags &&& VALUE_IS_CONSTANT) != 0) && ((other.flags &&& VALUE_IS_CONSTANT) != 0)) <|
  match v.type with
  | TypeName.INT8_TYPE =>
    Outcome.returned (decide (v.constant.i8 ≥ other.constant.i8))
  | TypeName.INT16_TYPE =>
    Outcome.returned (decide (v.constant.i16 ≥ other.constant.i16))
  | TypeName.INT32_TYPE =>
    Outcome.returned (decide (v.constant.i32 ≥ other.constant.i32))
  | TypeName.INT64_TYPE =>
    Outcome.returned (decide (v.constant.i64 ≥ other.constant.i64))
  | TypeName.FLOAT32_TYPE =>
    Outcome.returned (fops.f32_ge v.constant.f32 other.constant.f32)
  | TypeName.FLOAT64_TYPE =>
    Outcome.returned (fops.f64_ge v.constant.f64 other.constant.f64)
  | _ => assert_always cfg (Outcome.returned false)

/-- `IsConstantULT(Value* other)`. -/
def IsConstantULT (cfg : Config) (fops : FloatOps) (v other : Value) : Outcome Bool :=
  assert_true cfg
    (((v.flags &&& VALUE_IS_CONSTANT) != 0) && ((other.flags &&& VALUE_IS_CONSTANT) != 0)) <|
  match v.type with
  | TypeName.INT8_TYPE =>
    Outcome.returned (decide (toUnsigned 8 v.constant.i8 < toUnsigned 8 other.constant.i8))
  | TypeName.INT16_TYPE =>
    Outcome.returned (decide (toUnsigned 16 v.constant.i16 < toUnsigned 16 other.constant.i16))
  | TypeName.INT32_TYPE =>
    Outcome.returned (decide (toUnsigned 32 v.constant.i32 < toUnsigned 32 other.constant.i32))
  | TypeName.INT64_TYPE =>
    Outcome.returned (decide (toUnsigned 64 v.constant.i64 < toUnsigned 64 other.constant.i64))
  | TypeName.FLOAT32_TYPE =>
    Outcome.returned (fops.f32_lt v.constant.f32 other.constant.f32)
  | TypeName.FLOAT64_TYPE =>
    Outcome.returned (fops.f64_lt v.constant.f64 other.constant.f64)
  | _ => assert_always cfg (Outcome.returned false)

/-- `IsConstantULE(Value* other)`. -/
def IsConstantULE (cfg : Config) (fops : FloatOps) (v other : Value) : Outcome Bool :=
  assert_true cfg
    (((v.flags &&& VALUE_IS_CONSTANT) != 0) && ((other.flags &&& VALUE_IS_CONSTANT) != 0)) <|
  match v.type with
  | TypeName.INT8_TYPE =>
    Outcome.returned (decide (toUnsigned 8 v.constant.i8 ≤ toUnsigned 8 other.constant.i8))
  | TypeName.INT16_TYPE =>
    Outcome.returned (decide (toUnsigned 16 v.constant.i16 ≤ toUnsigned 16 other.constant.i16))
  | TypeName.INT32_TYPE =>
    Outcome.returned (decide (toUnsigned 32 v.constant.i32 ≤ toUnsigned 32 other.constant.i32))
  | TypeName.INT64_TYPE =>
    Outcome.returned (decide (toUnsigned 64 v.constant.i64 ≤ toUnsigned 64 other.constant.i64))
  | TypeName.FLOAT32_TYPE =>
    Outcome.returned (fops.f32_le v.constant.f32 other.constant.f32)
  | TypeName.FLOAT64_TYPE =>
    Outcome.returned (fops.f64_le v.constant.f64 other.constant.f64)
  | _ => assert_always cfg (Outcome.returned false)

/-- `IsConstantUGT(Value* other)`. -/
def IsConstantUGT (cfg : Config) (fops : FloatOps) (v other : Value) : Outcome Bool :=
  assert_true cfg
    (((v.flags &&& VALUE_IS_CONSTANT) != 0) && ((other.flags &&& VALUE_IS_CONSTANT) != 0)) <|
  match v.type with
  | TypeName.INT8_TYPE =>
    Outcome.returned (decide (toUnsigned 8 v.constant.i8 > toUnsigned 8 other.constant.i8))
  | TypeName.INT16_TYPE =>
    Outcome.returned (decide (toUnsigned 16 v.constant.i16 > toUnsigned 16 other.constant.i16))
  | TypeName.INT32_TYPE =>
    Outcome.returned (decide (toUnsigned 32 v.constant.i32 > toUnsigned 32 other.constant.i32))
  | TypeName.INT64_TYPE =>
    Outcome.returned (decide (toUnsigned 64 v.constant.i64 > toUnsigned 64 other.constant.i64))
  | TypeName.FLOAT32_TYPE =>
    Outcome.returned (fops.f32_gt v.constant.f32 other.constant.f32)
  | TypeName.FLOAT64_TYPE =>
    Outcome.returned (fops.f64_gt v.constant.f64 other.constant.f64)
  | _ => assert_always cfg (Outcome.returned false)

/-- `IsConstantUGE(Value* other)`. -/
def IsConstantUGE (cfg : Config) (fops : FloatOps) (v other : Value) : Outcome Bool :=
  assert_true cfg
    (((v.flags &&& VALUE_IS_CONSTANT) != 0) && ((other.flags &&& VALUE_IS_CONSTANT) != 0)) <|
  match v.type with
  | TypeName.INT8_TYPE =>
    Outcome.returned (decide (toUnsigned 8 v.constant.i8 ≥ toUnsigned 8 other.constant.i8))
  | TypeName.INT16_TYPE =>
    Outcome.returned (decide (toUnsigned 16 v.constant.i16 ≥ toUnsigned 16 other.constant.i16))
  | TypeName.INT32_TYPE =>
    Outcome.returned (decide (toUnsigned 32 v.constant.i32 ≥ toUnsigned 32 other.constant.i32))
  | TypeName.INT64_TYPE =>
    Outcome.returned (decide (toUnsigned 64 v.constant.i64 ≥ toUnsigned 64 other.constant.i64))
  | TypeName.FLOAT32_TYPE =>
    Outcome.returned (fops.f32_ge v.constant.f32 other.constant.f32)
  | TypeName.FLOAT64_TYPE =>
    Outcome.returned (fops.f64_ge v.constant.f64 other.constant.f64)
  | _ => assert_always cfg (Outcome.returned false)

end Value

/-! ## ValidationPass -/

/-- `ValidationPass::ValidateValue`: the body is commented out, it returns 0. -/
def ValidateValue (_cfg : Config) (_g : HIRBuilder) (_block _instr _value : Ptr) :
    Outcome Nat :=
  Outcome.returned 0

/-- The loop `while (use) { assert_true(use->instr->block == block); use = use->next; }`
followed by `rest`. -/
def ValidateInstruction.uses (cfg : Config) (g : HIRBuilder) (block : Ptr) :
    List Use → Outcome Nat → Outcome Nat
  | [], rest => rest
  | use :: next, rest =>
    assert_true cfg ((g.instr use.instr).block == block)
      (ValidateInstruction.uses cfg g block next rest)

/-- The statement `if (instr->dest) { assert_true(instr->dest->def == instr); ... }`
followed by `rest`. -/
def ValidateInstruction.dest (cfg : Config) (g : HIRBuilder) (block instr : Ptr)
    (rest : Outcome Nat) : Outcome Nat :=
  if (g.instr instr).dest != 0 then
    assert_true cfg ((g.value (g.instr instr).dest).def_ == instr)
      (ValidateInstruction.uses cfg g block (g.value (g.instr instr).dest).use_head rest)
  else rest

/-- One operand statement
`if (sigType == OPCODE_SIG_TYPE_V) { if (ValidateValue(block, instr, v)) return 1; }`
followed by `rest`. -/
def ValidateInstruction.operand (cfg : Config) (g : HIRBuilder) (block instr : Ptr)
    (sigType : Nat) (value : Ptr) (rest : Outcome Nat) : Outcome Nat :=
  if sigType == cfg.OPCODE_SIG_TYPE_V then
    match ValidateValue cfg g block instr value with
    | Outcome.aborted => Outcome.aborted
    | Outcome.returned r => if r != 0 then Outcome.returned 1 else rest
  else rest

/-- `ValidationPass::ValidateInstruction`. -/
def ValidateInstruction (cfg : Config) (g : HIRBuilder) (block instr : Ptr) : Outcome Nat :=
  assert_true cfg ((g.instr instr).block == block) <|
  if (g.instr instr).block != block then Outcome.returned 1
  else
    ValidateInstruction.dest cfg g block instr <|
    let signature := (g.instr instr).opcode.signature
    ValidateInstruction.operand cfg g block instr
      (cfg.GET_OPCODE_SIG_TYPE_SRC1 signature) (g.instr instr).src1 <|
    ValidateInstruction.operand cfg g block instr
      (cfg.GET_OPCODE_SIG_TYPE_SRC2 signature) (g.instr instr).src2 <|
    ValidateInstruction.operand cfg g block instr
      (cfg.GET_OPCODE_SIG_TYPE_SRC3 signature) (g.instr instr).src3 <|
    Outcome.returned 0

/-- The label loop of `Run` for one block, followed by `rest`. -/
def Run.labels (cfg : Config) (g : HIRBuilder) (block : Ptr) :
    List Ptr → Outcome Nat → Outcome Nat
  | [], rest => rest
  | label :: next, rest =>
    assert_true cfg ((g.label label).block == block) <|
    if (g.label label).block != block then Outcome.returned 1
    else Run.labels cfg g block next rest

/-- The instruction loop of `Run` for one block, followed by `rest`. -/
def Run.instrs (cfg : Config) (g : HIRBuilder) (block : Ptr) :
    List Ptr → Outcome Nat → Outcome Nat
  | [], rest => rest
  | instr :: next, rest =>
    match ValidateInstruction cfg g block instr with
    | Outcome.aborted => Outcome.aborted
    | Outcome.returned r =>
      if r != 0 then Outcome.returned 1 else Run.instrs cfg g block next rest

/-- The block loop of `Run`, ending in `return 0`. -/
def Run.blocks (cfg : Config) (g : HIRBuilder) : List Ptr → Outcome Nat
  | [] => Outcome.returned 0
  | block :: next =>
    Run.labels cfg g block (g.block block).label_head <|
    Run.instrs cfg g block (g.block block).instr_head <|
    Run.blocks cfg g next

/-- `ValidationPass::Run`. -/
def Run (cfg : Config) (g : HIRBuilder) : Outcome Nat :=
  Run.blocks cfg g g.first_block

/-! ## Specification vocabulary for the validator -/

/-- The outcome of a detected violation: termination at the assertion where the sink
aborts, the status 1 otherwise. -/
def failure (cfg : Config) : Outcome Nat :=
  if cfg.assert_aborts then Outcome.aborted else Outcome.returned 1

/-- Block `B` of graph `g` is well formed: its labels and its instructions point back to
it, every result points back to its instruction, and every use of a result is by an
instruction of `B`. -/
def WellFormedBlock (g : HIRBuilder) (B : Ptr) : Prop :=
  (∀ l ∈ (g.block B).label_head, (g.label l).block = B) ∧
  (∀ i ∈ (g.block B).instr_head,
    (g.instr i).block = B ∧
    ((g.instr i).dest ≠ 0 →
      (g.value (g.instr i).dest).def_ = i ∧
      ∀ u ∈ (g.value (g.instr i).dest).use_head, (g.instr u.instr).block = B))

/-- Every block of the graph is well formed. -/
def WellFormed (g : HIRBuilder) : Prop :=
  ∀ B ∈ g.first_block, WellFormedBlock g B

/-! ## Concrete configurations and graphs -/

/-- A signature decoding with three bit wide fields, value typed operands being tagged 4. -/
def sigField (shift : Nat) (signature : Nat) : Nat :=
  (signature >>> shift) &&& 7

/-- A configuration whose assertion sink does not abort. -/
def releaseConfig : Config :=
  { assert_aborts := false
    GET_OPCODE_SIG_TYPE_SRC1 := sigField 3
    GET_OPCODE_SIG_TYPE_SRC2 := sigField 6
    GET_OPCODE_SIG_TYPE_SRC3 := sigField 9
    OPCODE_SIG_TYPE_V := 4 }

/-- A configuration whose assertion sink aborts. -/
def debugConfig : Config :=
  { releaseConfig with assert_aborts := true }

/-- A symbolic INT32 value defined by `def_` with the given uses. -/
def mkValue (def_ : Ptr) (uses : List Use) : Value :=
  { ordinal := 0
    type := TypeName.INT32_TYPE
    flags := 0
    reg := { set := 0, index := 0 }
    constant := { low := 0, high := 0 }
    def_ := def_
    use_head := uses
    last_use := 0
    local_slot := 0
    tag := 0 }

/-- An instruction of `block` with result `dest` and first operand `src1`; the signature
marks the first operand as value typed exactly when there is one. -/
def mkInstr (block dest src1 : Ptr) : Instr :=
  { block := block
    opcode := { signature := if src1 = 0 then 0 else 4 <<< 3 }
    dest := dest
    src1 := src1
    src2 := 0
    src3 := 0 }

/-- A well formed function of two blocks.  Block 1 carries label 5 and the instructions
10 (defining value 100) and 11 (consuming value 100); block 2 carries label 6 and the
instruction 20 (defining value 200, unused). -/
def exampleGraph : HIRBuilder :=
  { first_block := [1, 2]
    block := fun b =>
      if b = 1 then { label_head := [5], instr_head := [10, 11] }
      else if b = 2 then { label_head := [6], instr_head := [20] }
      else { label_head := [], instr_head := [] }
    label := fun l => if l = 5 then { block := 1 } else if l = 6 then { block := 2 }
      else { block := 0 }
    instr := fun i =>
      if i = 10 then mkInstr 1 100 0
      else if i = 11 then mkInstr 1 0 100
      else if i = 20 then mkInstr 2 200 0
      else mkInstr 0 0 0
    value := fun v =>
      if v = 100 then mkValue 10 [{ instr := 11 }]
      else if v = 200 then mkValue 20 []
      else mkValue 0 [] }

/-- The example with instruction 20 (in the list of block 2) claiming block 1. -/
def exMisplacedInstr : HIRBuilder :=
  { exampleGraph with
    instr := fun i => if i = 20 then mkInstr 1 200 0 else exampleGraph.instr i }

/-- The example with label 6 (owned by block 2) pointing at block 1. -/
def exBadLabel : HIRBuilder :=
  { exampleGraph with
    label := fun l => if l = 6 then { block := 1 } else exampleGraph.label l }

/-- The example with value 100, the result of instruction 10, naming instruction 11 as
its definition. -/
def exBadDef : HIRBuilder :=
  { exampleGraph with
    value := fun v =>
      if v = 100 then mkValue 11 [{ instr := 11 }] else exampleGraph.value v }

/-- The example with value 100 (defined in block 1) consumed by instruction 20 of
block 2 instead of instruction 11. -/
def exCrossBlockUse : HIRBuilder :=
  { exampleGraph with
    instr := fun i =>
      if i = 11 then mkInstr 1 0 0
      else if i = 20 then mkInstr 2 200 100
      else exampleGraph.instr i
    value := fun v =>
      if v = 100 then mkValue 10 [{ instr := 20 }] else exampleGraph.value v }

instance decidableWellFormedBlock (g : HIRBuilder) (B : Ptr) :
    Decidable (WellFormedBlock g B) := by
  unfold WellFormedBlock; infer_instance

instance decidableWellFormed (g : HIRBuilder) : Decidable (WellFormed g) := by
  unfold WellFormed; infer_instance

/-! ## Specification vocabulary for constants -/

/-- Width in bits of the integer types; no width for the other types. -/
def integerWidth : TypeName → Option Nat
  | TypeName.INT8_TYPE => some 8
  | TypeName.INT16_TYPE => some 16
  | TypeName.INT32_TYPE => some 32
  | TypeName.INT64_TYPE => some 64
  | _ => none

/-- The stored `w` bit pattern of a value: the least significant `w` bits of its payload. -/
def bitPattern (w : Nat) (v : Value) : Nat :=
  v.constant.low % 2 ^ w

/-- The two's complement reading of a `w` bit pattern: the bits below the top one with
their weights, the top bit with weight `-2 ^ (w - 1)`. -/
def twosComplement (w : Nat) (bits : Nat) : Int :=
  ((bits % 2 ^ (w - 1) : Nat) : Int) - (if bits.testBit (w - 1) then 2 ^ (w - 1) else 0)

/-! ## Concrete constants -/

/-- A fresh value set to the 32 bit integer constant `x`. -/
def int32Const (x : Int) : Value :=
  (mkValue 0 []).set_constant_int32 x

/-- A fresh value set to the vector constant with the given halves. -/
def vecConst (low high : Nat) : Value :=
  (mkValue 0 []).set_constant_vec128 low high

/-- A stand-in for the host float comparisons (it compares bit patterns); the examples
never compare floats. -/
def exampleFloatOps : FloatOps :=
  { f32_lt := fun a b => decide (a < b)
    f32_le := fun a b => decide (a ≤ b)
    f32_gt := fun a b => decide (a > b)
    f32_ge := fun a b => decide (a ≥ b)
    f64_lt := fun a b => decide (a < b)
    f64_le := fun a b => decide (a ≤ b)
    f64_gt := fun a b => decide (a > b)
    f64_ge := fun a b => decide (a ≥ b) }

/-- A fresh value set to the 64 bit integer constant `x`. -/
def int64Const (x : Int) : Value :=
  (mkValue 0 []).set_constant_int64 x

/-- A fresh value set to the 32 bit float constant with the given bit pattern. -/
def floatConst (bits : Nat) : Value :=
  (mkValue 0 []).set_constant_float bits

/-- A fresh symbolic value carrying the backend flag `VALUE_IS_ALLOCATED`. -/
def allocatedValue : Value :=
  { mkValue 0 [] with flags := VALUE_IS_ALLOCATED }

/-- The example graph with other operands, signatures and backend metadata: instruction 11
names the operands 200, 100, 7 under an all-value signature, and value 100 carries
`last_use` and `local_slot`. -/
def exOtherOperands : HIRBuilder :=
  { exampleGraph with
    instr := fun i =>
      if i = 11 then
        { block := 1, opcode := { signature := 2340 }, dest := 0, src1 := 200, src2 := 100,
          src3 := 7 }
      else exampleGraph.instr i
    value := fun v =>
      if v = 100 then { mkValue 10 [{ instr := 11 }] with last_use := 11, local_slot := 200 }
      else exampleGraph.value v }

/-! ## Lemmas on the validator -/

theorem assert_true_of_true {α : Type} (cfg : Config) (rest : Outcome α) :
    assert_true cfg true rest = rest := by
  simp [assert_true]

theorem assert_true_release {α : Type} (cfg : Config) (expr : Bool) (rest : Outcome α)
    (h : cfg.assert_aborts = false) : assert_true cfg expr rest = rest := by
  simp [assert_true, h]

theorem assert_true_debug_false {α : Type} (cfg : Config) (rest : Outcome α)
    (h : cfg.assert_aborts = true) : assert_true cfg false rest = Outcome.aborted := by
  simp [assert_true, h]

/-- An assertion either lets the rest run or, under an aborting sink, ends in the failure
outcome. -/
theorem assert_true_cases (cfg : Config) (expr : Bool) (rest : Outcome Nat) :
    assert_true cfg expr rest = rest ∨ assert_true cfg expr rest = failure cfg := by
  cases hc : cfg.assert_aborts <;> cases expr <;> simp [assert_true, failure, hc]

theorem operand_eq (cfg : Config) (g : HIRBuilder) (block instr sigType value : Ptr)
    (rest : Outcome Nat) :
    ValidateInstruction.operand cfg g block instr sigType value rest = rest := by
  simp [ValidateInstruction.operand, ValidateValue]

theorem uses_cases (cfg : Config) (g : HIRBuilder) (block : Ptr) (us : List Use)
    (rest : Outcome Nat) :
    ValidateInstruction.uses cfg g block us rest = rest ∨
      ValidateInstruction.uses cfg g block us rest = failure cfg := by
  induction us with
  | nil => exact Or.inl rfl
  | cons u us ih =>
    simp only [ValidateInstruction.uses]
    rcases assert_true_cases cfg ((g.instr u.instr).block == block)
      (ValidateInstruction.uses cfg g block us rest) with h | h
    · rw [h]; exact ih
    · exact Or.inr h

theorem uses_of_all (cfg : Config) (g : HIRBuilder) (block : Ptr) (us : List Use)
    (rest : Outcome Nat) (h : ∀ u ∈ us, (g.instr u.instr).block = block) :
    ValidateInstruction.uses cfg g block us rest = rest := by
  induction us with
  | nil => rfl
  | cons u us ih =>
    have hu : (g.instr u.instr).block = block := h u (List.mem_cons_self _ _)
    simp only [ValidateInstruction.uses, hu, beq_self_eq_true, assert_true_of_true]
    exact ih (fun x hx => h x (List.mem_cons_of_mem _ hx))

theorem dest_cases (cfg : Config) (g : HIRBuilder) (block instr : Ptr) (rest : Outcome Nat) :
    ValidateInstruction.dest cfg g block instr rest = rest ∨
      ValidateInstruction.dest cfg g block instr rest = failure cfg := by
  unfold ValidateInstruction.dest
  split
  · rcases assert_true_cases cfg ((g.value (g.instr instr).dest).def_ == instr)
      (ValidateInstruction.uses cfg g block (g.value (g.instr instr).dest).use_head rest)
      with h | h
    · rw [h]; exact uses_cases cfg g block _ rest
    · exact Or.inr h
  · exact Or.inl rfl

theorem ValidateInstruction_cases (cfg : Config) (g : HIRBuilder) (block instr : Ptr) :
    ValidateInstruction cfg g block instr = Outcome.returned 0 ∨
      ValidateInstruction cfg g block instr = failure cfg := by
  unfold ValidateInstruction
  simp only [operand_eq]
  by_cases hb : (g.instr instr).block = block
  · simp only [hb, beq_self_eq_true, assert_true_of_true, bne_self_eq_false,
      Bool.false_eq_true, if_false]
    exact dest_cases cfg g block instr _
  · right
    cases hc : cfg.assert_aborts <;> simp [assert_true, failure, hc, hb]

theorem ValidateInstruction_misplaced (cfg : Config) (g : HIRBuilder) (block instr : Ptr)
    (hb : (g.instr instr).block ≠ block) :
    ValidateInstruction cfg g block instr = failure cfg := by
  unfold ValidateInstruction
  cases hc : cfg.assert_aborts <;> simp [assert_true, failure, hc, hb]

theorem instrs_step_failure (cfg : Config) (g : HIRBuilder) (block i : Ptr)
    (is : List Ptr) (rest : Outcome Nat)
    (h : ValidateInstruction cfg g block i = failure cfg) :
    Run.instrs cfg g block (i :: is) rest = failure cfg := by
  simp only [Run.instrs, h]
  cases hc : cfg.assert_aborts <;> simp [failure, hc]

theorem instrs_step_ok (cfg : Config) (g : HIRBuilder) (block i : Ptr)
    (is : List Ptr) (rest : Outcome Nat)
    (h : ValidateInstruction cfg g block i = Outcome.returned 0) :
    Run.instrs cfg g block (i :: is) rest = Run.instrs cfg g block is rest := by
  simp [Run.instrs, h]

theorem instrs_cases (cfg : Config) (g : HIRBuilder) (block : Ptr) (is : List Ptr)
    (rest : Outcome Nat) :
    Run.instrs cfg g block is rest = rest ∨ Run.instrs cfg g block is rest = failure cfg := by
  induction is with
  | nil => exact Or.inl rfl
  | cons i is ih =>
    rcases ValidateInstruction_cases cfg g block i with h | h
    · rw [instrs_step_ok cfg g block i is rest h]; exact ih
    · exact Or.inr (instrs_step_failure cfg g block i is rest h)

theorem instrs_misplaced (cfg : Config) (g : HIRBuilder) (block : Ptr) (is : List Ptr)
    (rest : Outcome Nat) (I : Ptr) (hI : I ∈ is) (hb : (g.instr I).block ≠ block) :
    Run.instrs cfg g block is rest = failure cfg := by
  induction is with
  | nil => cases hI
  | cons i is ih =>
    rcases ValidateInstruction_cases cfg g block i with h | h
    · rw [instrs_step_ok cfg g block i is rest h]
      rcases List.mem_cons.mp hI with rfl | hmem
      · rw [ValidateInstruction_misplaced cfg g block I hb] at h
        cases hc : cfg.assert_aborts <;> simp [failure, hc] at h
      · exact ih hmem
    · exact instrs_step_failure cfg g block i is rest h

theorem labels_cases (cfg : Config) (g : HIRBuilder) (block : Ptr) (ls : List Ptr)
    (rest : Outcome Nat) :
    Run.labels cfg g block ls rest = rest ∨ Run.labels cfg g block ls rest = failure cfg := by
  induction ls with
  | nil => exact Or.inl rfl
  | cons l ls ih =>
    simp only [Run.labels]
    by_cases hb : (g.label l).block = block
    · simpa [hb, assert_true_of_true] using ih
    · right
      cases hc : cfg.assert_aborts <;> simp [assert_true, failure, hc, hb]

theorem labels_bad (cfg : Config) (g : HIRBuilder) (block : Ptr) (ls : List Ptr)
    (rest : Outcome Nat) (l : Ptr) (hl : l ∈ ls) (hb : (g.label l).block ≠ block) :
    Run.labels cfg g block ls rest = failure cfg := by
  induction ls with
  | nil => cases hl
  | cons x ls ih =>
    simp only [Run.labels]
    by_cases hx : (g.label x).block = block
    · have hmem : l ∈ ls := by
        rcases List.mem_cons.mp hl with rfl | hmem
        · exact absurd hx hb
        · exact hmem
      simpa [hx, assert_true_of_true] using ih hmem
    · cases hc : cfg.assert_aborts <;> simp [assert_true, failure, hc, hx]

theorem labels_of_all (cfg : Config) (g : HIRBuilder) (block : Ptr) (ls : List Ptr)
    (rest : Outcome Nat) (h : ∀ l ∈ ls, (g.label l).block = block) :
    Run.labels cfg g block ls rest = rest := by
  induction ls with
  | nil => rfl
  | cons x ls ih =>
    have hx : (g.label x).block = block := h x (List.mem_cons_self _ _)
    simp only [Run.labels, hx, beq_self_eq_true, assert_true_of_true, bne_self_eq_false,
      Bool.false_eq_true, if_false]
    exact ih (fun y hy => h y (List.mem_cons_of_mem _ hy))

theorem blocks_cases (cfg : Config) (g : HIRBuilder) (bs : List Ptr) :
    Run.blocks cfg g bs = Outcome.returned 0 ∨ Run.blocks cfg g bs = failure cfg := by
  induction bs with
  | nil => exact Or.inl rfl
  | cons b bs ih =>
    simp only [Run.blocks]
    rcases labels_cases cfg g b (g.block b).label_head
      (Run.instrs cfg g b (g.block b).instr_head (Run.blocks cfg g bs)) with h | h
    · rw [h]
      rcases instrs_cases cfg g b (g.block b).instr_head (Run.blocks cfg g bs) with h2 | h2
      · rw [h2]; exact ih
      · exact Or.inr h2
    · exact Or.inr h

/-- A block whose own validation ends in the failure outcome, whatever follows it, makes the
block loop end in the failure outcome from any position of the chain. -/
theorem blocks_failure_of_mem (cfg : Config) (g : HIRBuilder) (bs : List Ptr) (B : Ptr)
    (hB : B ∈ bs)
    (hfail : ∀ rest, Run.labels cfg g B (g.block B).label_head
      (Run.instrs cfg g B (g.block B).instr_head rest) = failure cfg) :
    Run.blocks cfg g bs = failure cfg := by
  induction bs with
  | nil => cases hB
  | cons b bs ih =>
    simp only [Run.blocks]
    rcases List.mem_cons.mp hB with rfl | hmem
    · exact hfail _
    · rcases labels_cases cfg g b (g.block b).label_head
        (Run.instrs cfg g b (g.block b).instr_head (Run.blocks cfg g bs)) with h | h
      · rw [h]
        rcases instrs_cases cfg g b (g.block b).instr_head (Run.blocks cfg g bs) with h2 | h2
        · rw [h2]; exact ih hmem
        · exact h2
      · exact h

theorem ValidateInstruction_of_wf (cfg : Config) (g : HIRBuilder) (B i : Ptr)
    (hwf : WellFormedBlock g B) (hi : i ∈ (g.block B).instr_head) :
    ValidateInstruction cfg g B i = Outcome.returned 0 := by
  obtain ⟨hb, hd⟩ := hwf.2 i hi
  unfold ValidateInstruction
  simp only [operand_eq, hb, beq_self_eq_true, assert_true_of_true, bne_self_eq_false,
    Bool.false_eq_true, if_false]
  unfold ValidateInstruction.dest
  by_cases h0 : (g.instr i).dest = 0
  · simp [h0]
  · obtain ⟨hdef, huses⟩ := hd h0
    simp [h0, hdef, assert_true_of_true, uses_of_all cfg g B _ _ huses]

theorem instrs_of_wf (cfg : Config) (g : HIRBuilder) (B : Ptr) (is : List Ptr)
    (rest : Outcome Nat)
    (h : ∀ i ∈ is, ValidateInstruction cfg g B i = Outcome.returned 0) :
    Run.instrs cfg g B is rest = rest := by
  induction is with
  | nil => rfl
  | cons i is ih =>
    rw [instrs_step_ok cfg g B i is rest (h i (List.mem_cons_self _ _))]
    exact ih (fun x hx => h x (List.mem_cons_of_mem _ hx))

/-- A well formed block passes control to whatever follows it. -/
theorem block_of_wf (cfg : Config) (g : HIRBuilder) (B : Ptr) (rest : Outcome Nat)
    (hwf : WellFormedBlock g B) :
    Run.labels cfg g B (g.block B).label_head
      (Run.instrs cfg g B (g.block B).instr_head rest) = rest := by
  rw [labels_of_all cfg g B _ _ hwf.1]
  exact instrs_of_wf cfg g B _ rest (fun i hi => ValidateInstruction_of_wf cfg g B i hwf hi)

theorem blocks_append_of_wf (cfg : Config) (g : HIRBuilder) (pre rest : List Ptr)
    (hwf : ∀ b ∈ pre, WellFormedBlock g b) :
    Run.blocks cfg g (pre ++ rest) = Run.blocks cfg g rest := by
  induction pre with
  | nil => rfl
  | cons b pre ih =>
    simp only [List.cons_append, Run.blocks]
    rw [block_of_wf cfg g b _ (hwf b (List.mem_cons_self _ _))]
    exact ih (fun x hx => hwf x (List.mem_cons_of_mem _ hx))

/-! ## The validator: claims C1 to C5 -/

/-- C1: for every function graph, every block `B` of its chain and every instruction `I`
of the instruction list of `B`, if `I.block` is not `B` then `ValidationPass::Run` fails:
it returns the status 1 where the assertion sink does not abort, and it is terminated at
the assertion (so never returns success) where the sink aborts. -/
theorem C1_misplaced_instruction_fails (cfg : Config) (g : HIRBuilder) (B I : Ptr)
    (hB : B ∈ g.first_block) (hI : I ∈ (g.block B).instr_head)
    (hne : (g.instr I).block ≠ B) :
    Run cfg g = (if cfg.assert_aborts then Outcome.aborted else Outcome.returned 1) := by
  have h : Run cfg g = failure cfg :=
    blocks_failure_of_mem cfg g g.first_block B hB (fun rest => by
      rcases labels_cases cfg g B (g.block B).label_head
        (Run.instrs cfg g B (g.block B).instr_head rest) with h | h
      · rw [h]; exact instrs_misplaced cfg g B _ rest I hI hne
      · exact h)
  simpa [failure] using h

/-- C1 at the example graph whose instruction 20, listed in block 2, claims block 1:
`Run` returns 1 under a sink that does not abort. -/
theorem C1_misplaced_instruction_fails_witness :
    (2 ∈ exMisplacedInstr.first_block ∧ 20 ∈ (exMisplacedInstr.block 2).instr_head ∧
      (exMisplacedInstr.instr 20).block ≠ 2) ∧
    Run releaseConfig exMisplacedInstr = Outcome.returned 1 :=
  ⟨by decide,
    C1_misplaced_instruction_fails releaseConfig exMisplacedInstr 2 20
      (by decide) (by decide) (by decide)⟩

/-- C2: for every well formed function graph (labels and instructions point back to
their block, results point back to their instruction, uses stay inside the block),
`ValidationPass::Run` returns 0, whatever the assertion sink does. -/
theorem C2_well_formed_succeeds (cfg : Config) (g : HIRBuilder) (hwf : WellFormed g) :
    Run cfg g = Outcome.returned 0 := by
  have h := blocks_append_of_wf cfg g g.first_block [] hwf
  simpa [Run, Run.blocks] using h

/-- C2 at the two block example graph, under an aborting sink. -/
theorem C2_well_formed_succeeds_witness :
    WellFormed exampleGraph ∧ Run debugConfig exampleGraph = Outcome.returned 0 :=
  ⟨by decide, C2_well_formed_succeeds debugConfig exampleGraph (by decide)⟩

/-- C3: if block `B` of the chain owns a label whose `block` is not `B`, then `Run`
fails (status 1, or termination at the assertion under an aborting sink).  Moreover, when
the blocks before `B` are well formed, the result of `Run` is the result of the label
loop of `B` whatever code follows that loop (the instruction loop of `B` and all later
blocks are never consulted); and every graph with the same block chain, the same labels
and the same label lists has the same result, whatever its instruction lists,
instructions and values are. -/
theorem C3_bad_label_fails_before_instructions (cfg : Config) (g : HIRBuilder)
    (pre post : List Ptr) (B l : Ptr)
    (hchain : g.first_block = pre ++ B :: post)
    (hl : l ∈ (g.block B).label_head) (hbad : (g.label l).block ≠ B) :
    Run cfg g = (if cfg.assert_aborts then Outcome.aborted else Outcome.returned 1) ∧
    ((∀ b ∈ pre, WellFormedBlock g b) →
      ∀ rest : Outcome Nat, Run.labels cfg g B (g.block B).label_head rest = Run cfg g) ∧
    (∀ g2 : HIRBuilder, g2.first_block = g.first_block → g2.label = g.label →
      (∀ b, (g2.block b).label_head = (g.block b).label_head) → Run cfg g2 = Run cfg g) := by
  have key : ∀ g2 : HIRBuilder, g2.first_block = g.first_block → g2.label = g.label →
      (∀ b, (g2.block b).label_head = (g.block b).label_head) → Run cfg g2 = failure cfg := by
    intro g2 h1 h2 h3
    have hB : B ∈ g2.first_block := by rw [h1, hchain]; simp
    refine blocks_failure_of_mem cfg g2 g2.first_block B hB (fun rest => ?_)
    refine labels_bad cfg g2 B _ _ l ?_ ?_
    · rw [h3]; exact hl
    · rw [h2]; exact hbad
  have hg : Run cfg g = failure cfg := key g rfl rfl (fun _ => rfl)
  refine ⟨by simpa [failure] using hg, ?_, ?_⟩
  · intro _ rest
    rw [hg]
    exact labels_bad cfg g B _ rest l hl hbad
  · intro g2 h1 h2 h3
    rw [hg]
    exact key g2 h1 h2 h3

/-- C3 at the two block example whose label 6, owned by block 2, points at block 1. -/
theorem C3_bad_label_fails_before_instructions_witness :
    (exBadLabel.first_block = [1] ++ 2 :: [] ∧ 6 ∈ (exBadLabel.block 2).label_head ∧
      (exBadLabel.label 6).block ≠ 2 ∧ ∀ b ∈ [1], WellFormedBlock exBadLabel b) ∧
    Run releaseConfig exBadLabel = Outcome.returned 1 ∧
    ∀ rest : Outcome Nat,
      Run.labels releaseConfig exBadLabel 2 (exBadLabel.block 2).label_head rest =
        Run releaseConfig exBadLabel :=
  ⟨by decide,
    (C3_bad_label_fails_before_instructions releaseConfig exBadLabel [1] [] 2 6
      rfl (by decide) (by decide)).1,
    (C3_bad_label_fails_before_instructions releaseConfig exBadLabel [1] [] 2 6
      rfl (by decide) (by decide)).2.1 (by decide)⟩

/-- C4 (the code at the failing input): in `exBadDef` instruction 10 of block 1 has the
result 100 whose `def` is instruction 11, and under a sink that does not abort `Run`
returns 0; under an aborting sink it is terminated at the assertion. -/
theorem C4_bad_def_returns_success :
    (1 ∈ exBadDef.first_block ∧ 10 ∈ (exBadDef.block 1).instr_head ∧
      (exBadDef.instr 10).dest ≠ 0 ∧
      (exBadDef.value (exBadDef.instr 10).dest).def_ ≠ 10) ∧
    Run releaseConfig exBadDef = Outcome.returned 0 ∧
    Run debugConfig exBadDef = Outcome.aborted := by
  decide

/-- C5 (the code at the failing input): in `exCrossBlockUse` the result 100 of
instruction 10 of block 1 has a use by instruction 20, whose block is 2, and under a sink
that does not abort `Run` returns 0; under an aborting sink it is terminated at the
assertion. -/
theorem C5_cross_block_use_returns_success :
    (1 ∈ exCrossBlockUse.first_block ∧ 10 ∈ (exCrossBlockUse.block 1).instr_head ∧
      (exCrossBlockUse.instr 10).dest = 100 ∧
      { instr := 20 } ∈ (exCrossBlockUse.value 100).use_head ∧
      (exCrossBlockUse.instr 20).block ≠ 1) ∧
    Run releaseConfig exCrossBlockUse = Outcome.returned 0 ∧
    Run debugConfig exCrossBlockUse = Outcome.aborted := by
  decide
/-! ## Lemmas on the constant payload -/

theorem or_constant_flag (f : Nat) : ((f ||| VALUE_IS_CONSTANT) &&& VALUE_IS_CONSTANT) ≠ 0 := by
  intro h
  have h1 := congrArg (fun n => n.testBit 1) h
  have h2 : Nat.testBit 2 1 = true := by decide
  simp [VALUE_IS_CONSTANT, Nat.testBit_and, Nat.testBit_or, h2] at h1

theorem asSigned_eq_twosComplement (w n : Nat) (hw : w = 8 ∨ w = 16 ∨ w = 32 ∨ w = 64)
    (hn : n < 2 ^ w) : asSigned w n = twosComplement w n := by
  unfold asSigned twosComplement
  rw [Nat.testBit_to_div_mod]
  rcases hw with rfl | rfl | rfl | rfl <;> norm_num at hn ⊢ <;> split <;> split <;> omega

theorem toUnsigned_asSigned (w n : Nat) (hw : w = 8 ∨ w = 16 ∨ w = 32 ∨ w = 64)
    (hn : n < 2 ^ w) : toUnsigned w (asSigned w n) = n := by
  unfold asSigned toUnsigned
  rcases hw with rfl | rfl | rfl | rfl <;> norm_num at hn ⊢ <;> split <;> omega

theorem asSigned_overlay_toUnsigned (w : Nat) (word : Nat) (x : Int)
    (hw : w = 8 ∨ w = 16 ∨ w = 32 ∨ w = 64)
    (hlo : -2 ^ (w - 1) ≤ x) (hhi : x < 2 ^ (w - 1)) :
    asSigned w (overlay w word (toUnsigned w x) % 2 ^ w) = x := by
  unfold asSigned overlay toUnsigned
  rcases hw with rfl | rfl | rfl | rfl <;> norm_num at hlo hhi ⊢ <;> omega

theorem pattern_lt (w n : Nat) (hw : w = 8 ∨ w = 16 ∨ w = 32 ∨ w = 64) : n % 2 ^ w < 2 ^ w := by
  rcases hw with rfl | rfl | rfl | rfl <;> exact Nat.mod_lt _ (by norm_num)

theorem constant_flags_ok (cfg : Config) (a b : Value) (rest : Outcome Bool)
    (ha : a.IsConstant = true) (hb : b.IsConstant = true) :
    assert_true cfg
      (((a.flags &&& VALUE_IS_CONSTANT) != 0) && ((b.flags &&& VALUE_IS_CONSTANT) != 0))
      rest = rest := by
  unfold Value.IsConstant at ha hb
  rw [ha, hb]
  exact assert_true_of_true cfg rest

/-! ## Constants: claims C6 to C10 -/

/-- C6: for constants `a`, `b` of the same integer type of width `w` (8, 16, 32 or 64),
`a.IsConstantSLT(b)` returns true exactly when the stored `w` bit pattern of `a`, read in
two's complement, is less than that of `b`, and `a.IsConstantULT(b)` returns true exactly
when the pattern of `a`, read as an unsigned number, is less than that of `b`. -/
theorem C6_integer_comparison_by_width (cfg : Config) (fops : FloatOps) (a b : Value)
    (w : Nat) (hw : integerWidth a.type = some w) (_hty : b.type = a.type)
    (ha : a.IsConstant = true) (hb : b.IsConstant = true) :
    a.IsConstantSLT cfg fops b =
      Outcome.returned
        (decide (twosComplement w (bitPattern w a) < twosComplement w (bitPattern w b))) ∧
    a.IsConstantULT cfg fops b =
      Outcome.returned (decide (bitPattern w a < bitPattern w b)) := by
  unfold Value.IsConstantSLT Value.IsConstantULT
  rw [constant_flags_ok cfg a b _ ha hb, constant_flags_ok cfg a b _ ha hb]
  unfold bitPattern
  cases hta : a.type <;> rw [hta] at hw <;> simp only [integerWidth] at hw <;> cases hw <;>
    dsimp only [ConstantValue.i8, ConstantValue.i16, ConstantValue.i32, ConstantValue.i64] <;>
    rw [toUnsigned_asSigned _ _ (by decide) (pattern_lt _ _ (by decide)),
      toUnsigned_asSigned _ _ (by decide) (pattern_lt _ _ (by decide)),
      asSigned_eq_twosComplement _ _ (by decide) (pattern_lt _ _ (by decide)),
      asSigned_eq_twosComplement _ _ (by decide) (pattern_lt _ _ (by decide))] <;>
    exact ⟨rfl, rfl⟩

/-- C6 at the 32 bit constants -1 and 1: signed less-than holds, unsigned does not. -/
theorem C6_integer_comparison_by_width_witness :
    (integerWidth (int32Const (-1)).type = some 32 ∧
      (int32Const 1).type = (int32Const (-1)).type ∧
      (int32Const (-1)).IsConstant = true ∧ (int32Const 1).IsConstant = true) ∧
    (int32Const (-1)).IsConstantSLT releaseConfig exampleFloatOps (int32Const 1) =
      Outcome.returned true ∧
    (int32Const (-1)).IsConstantULT releaseConfig exampleFloatOps (int32Const 1) =
      Outcome.returned false :=
  ⟨by decide,
    (C6_integer_comparison_by_width releaseConfig exampleFloatOps (int32Const (-1))
      (int32Const 1) 32 (by decide) (by decide) (by decide) (by decide)).1.trans (by decide),
    (C6_integer_comparison_by_width releaseConfig exampleFloatOps (int32Const (-1))
      (int32Const 1) 32 (by decide) (by decide) (by decide) (by decide)).2.trans (by decide)⟩

/-- C7: for every value `v`, whatever its prior state, and every 32 bit signed integer
`x` (the minimum `-2 ^ 31` included): after `v.set_constant(x)`, `get_constant(int32)`
returns `x`, the type is `INT32_TYPE` and `IsConstant()` is true. -/
theorem C7_int32_round_trip (v : Value) (x : Int) (hlo : -2 ^ 31 ≤ x) (hhi : x < 2 ^ 31) :
    (v.set_constant_int32 x).get_constant_int32 = x ∧
    (v.set_constant_int32 x).type = TypeName.INT32_TYPE ∧
    (v.set_constant_int32 x).IsConstant = true := by
  refine ⟨?_, rfl, ?_⟩
  · exact asSigned_overlay_toUnsigned 32 v.constant.low x (by decide) hlo hhi
  · simpa [Value.IsConstant, Value.set_constant_int32] using or_constant_flag v.flags

/-- C7 at the two's complement minimum, on a value that held a vector constant before. -/
theorem C7_int32_round_trip_witness :
    ((-2 : Int) ^ 31 ≤ -2147483648 ∧ (-2147483648 : Int) < 2 ^ 31) ∧
    ((vecConst 18446744073709551615 7).set_constant_int32 (-2147483648)).get_constant_int32 =
      -2147483648 :=
  ⟨by decide,
    (C7_int32_round_trip (vecConst 18446744073709551615 7) (-2147483648)
      (by decide) (by decide)).1⟩

/-- C8: for every constant of type `VEC128_TYPE`, `IsConstantZero()` is true if and only
if both 64 bit halves of the payload are zero. -/
theorem C8_vector_zero_test (v : Value) (hty : v.type = TypeName.VEC128_TYPE)
    (hc : v.IsConstant = true) :
    v.IsConstantZero = true ↔ (v.constant.v128_low = 0 ∧ v.constant.v128_high = 0) := by
  unfold Value.IsConstant at hc
  simp [Value.IsConstantZero, hty, hc]

/-- C8 at the vector constants (0, 0), (0, 1) and (1, 0). -/
theorem C8_vector_zero_test_witness :
    ((vecConst 0 0).type = TypeName.VEC128_TYPE ∧ (vecConst 0 0).IsConstant = true) ∧
    (vecConst 0 0).IsConstantZero = true ∧ (vecConst 0 1).IsConstantZero = false ∧
    (vecConst 1 0).IsConstantZero = false :=
  ⟨by decide,
    (C8_vector_zero_test (vecConst 0 0) (by decide) (by decide)).mpr (by decide),
    by decide, by decide⟩

/-- C9 fails as stated: under a sink that does not abort, the four predicates return a
boolean on vector constants, and that boolean is computed from the low 64 bits alone
(the vectors (1, 0) and (1, 5) differ, yet compare equal). -/
theorem C9_vector_predicates_return_in_release :
    ((vecConst 1 0).type = TypeName.VEC128_TYPE ∧ (vecConst 1 0) ≠ (vecConst 1 5)) ∧
    (vecConst 1 0).IsConstantTrue releaseConfig = Outcome.returned true ∧
    (vecConst 1 0).IsConstantFalse releaseConfig = Outcome.returned false ∧
    (vecConst 1 0).IsConstantEQ releaseConfig (vecConst 1 5) = Outcome.returned true ∧
    (vecConst 1 0).IsConstantNE releaseConfig (vecConst 1 5) = Outcome.returned false := by
  decide

/-- C9, amended: where the assertion sink aborts, `IsConstantTrue`, `IsConstantFalse`,
`IsConstantEQ` and `IsConstantNE` on a receiver of type `VEC128_TYPE` are terminated at
the assertion and return no boolean, for every argument. -/
theorem C9_vector_predicates_abort_in_debug (cfg : Config) (v other : Value)
    (hdebug : cfg.assert_aborts = true) (hty : v.type = TypeName.VEC128_TYPE) :
    v.IsConstantTrue cfg = Outcome.aborted ∧ v.IsConstantFalse cfg = Outcome.aborted ∧
    v.IsConstantEQ cfg other = Outcome.aborted ∧ v.IsConstantNE cfg other = Outcome.aborted := by
  simp [Value.IsConstantTrue, Value.IsConstantFalse, Value.IsConstantEQ, Value.IsConstantNE,
    hty, assert_always, assert_true, hdebug]

/-- C9, amended, at the vector constant (1, 0) with argument (1, 5). -/
theorem C9_vector_predicates_abort_in_debug_witness :
    (debugConfig.assert_aborts = true ∧ (vecConst 1 0).type = TypeName.VEC128_TYPE) ∧
    (vecConst 1 0).IsConstantTrue debugConfig = Outcome.aborted ∧
    (vecConst 1 0).IsConstantFalse debugConfig = Outcome.aborted ∧
    (vecConst 1 0).IsConstantEQ debugConfig (vecConst 1 5) = Outcome.aborted ∧
    (vecConst 1 0).IsConstantNE debugConfig (vecConst 1 5) = Outcome.aborted :=
  ⟨by decide,
    C9_vector_predicates_abort_in_debug debugConfig (vecConst 1 0) (vecConst 1 5)
      (by decide) (by decide)⟩

/-- C10 fails as stated: under a sink that does not abort, each of the eight ordered
comparisons returns `false` on a vector receiver. -/
theorem C10_vector_ordering_returns_in_release :
    (vecConst 1 0).type = TypeName.VEC128_TYPE ∧
    (vecConst 1 0).IsConstantSLT releaseConfig exampleFloatOps (vecConst 2 0) =
      Outcome.returned false ∧
    (vecConst 1 0).IsConstantSLE releaseConfig exampleFloatOps (vecConst 2 0) =
      Outcome.returned false ∧
    (vecConst 1 0).IsConstantSGT releaseConfig exampleFloatOps (vecConst 2 0) =
      Outcome.returned false ∧
    (vecConst 1 0).IsConstantSGE releaseConfig exampleFloatOps (vecConst 2 0) =
      Outcome.returned false ∧
    (vecConst 1 0).IsConstantULT releaseConfig exampleFloatOps (vecConst 2 0) =
      Outcome.returned false ∧
    (vecConst 1 0).IsConstantULE releaseConfig exampleFloatOps (vecConst 2 0) =
      Outcome.returned false ∧
    (vecConst 1 0).IsConstantUGT releaseConfig exampleFloatOps (vecConst 2 0) =
      Outcome.returned false ∧
    (vecConst 1 0).IsConstantUGE releaseConfig exampleFloatOps (vecConst 2 0) =
      Outcome.returned false := by
  decide

/-- C10, amended: where the assertion sink aborts, each of the eight ordered comparisons
on a receiver of type `VEC128_TYPE` is terminated at an assertion and yields no result,
for every argument. -/
theorem C10_vector_ordering_aborts_in_debug (cfg : Config) (fops : FloatOps)
    (v other : Value) (hdebug : cfg.assert_aborts = true)
    (hty : v.type = TypeName.VEC128_TYPE) :
    v.IsConstantSLT cfg fops other = Outcome.aborted ∧
    v.IsConstantSLE cfg fops other = Outcome.aborted ∧
    v.IsConstantSGT cfg fops other = Outcome.aborted ∧
    v.IsConstantSGE cfg fops other = Outcome.aborted ∧
    v.IsConstantULT cfg fops other = Outcome.aborted ∧
    v.IsConstantULE cfg fops other = Outcome.aborted ∧
    v.IsConstantUGT cfg fops other = Outcome.aborted ∧
    v.IsConstantUGE cfg fops other = Outcome.aborted := by
  simp [Value.IsConstantSLT, Value.IsConstantSLE, Value.IsConstantSGT, Value.IsConstantSGE,
    Value.IsConstantULT, Value.IsConstantULE, Value.IsConstantUGT, Value.IsConstantUGE,
    hty, assert_always, assert_true, hdebug]

/-- C10, amended, at the vector constants (1, 0) and (2, 0). -/
theorem C10_vector_ordering_aborts_in_debug_witness :
    (debugConfig.assert_aborts = true ∧ (vecConst 1 0).type = TypeName.VEC128_TYPE) ∧
    (vecConst 1 0).IsConstantSLT debugConfig exampleFloatOps (vecConst 2 0) =
      Outcome.aborted ∧
    (vecConst 1 0).IsConstantUGE debugConfig exampleFloatOps (vecConst 2 0) =
      Outcome.aborted :=
  ⟨by decide,
    (C10_vector_ordering_aborts_in_debug debugConfig exampleFloatOps (vecConst 1 0)
      (vecConst 2 0) (by decide) (by decide)).1,
    (C10_vector_ordering_aborts_in_debug debugConfig exampleFloatOps (vecConst 1 0)
      (vecConst 2 0) (by decide) (by decide)).2.2.2.2.2.2.2⟩


/-! ## Constants: claims C11 to C16 -/

theorem or_constant_keeps_allocated (f : Nat) :
    (f ||| VALUE_IS_CONSTANT) &&& VALUE_IS_ALLOCATED = f &&& VALUE_IS_ALLOCATED := by
  apply Nat.eq_of_testBit_eq
  intro i
  have h2 : VALUE_IS_CONSTANT = 2 ^ 1 := by decide
  have h4 : VALUE_IS_ALLOCATED = 2 ^ 2 := by decide
  rw [h2, h4]
  simp only [Nat.testBit_and, Nat.testBit_or, Nat.testBit_two_pow]
  by_cases h : 2 = i
  · subst h; simp
  · simp [h]

/-- C11: for constants `a`, `b` with `a` of type `FLOAT32_TYPE` or `FLOAT64_TYPE`, each
unsigned comparison returns what the signed one returns: ULT as SLT, ULE as SLE, UGT as
SGT and UGE as SGE (the float comparison itself being a parameter). -/
theorem C11_float_unsigned_is_signed (cfg : Config) (fops : FloatOps) (a b : Value)
    (hty : a.type = TypeName.FLOAT32_TYPE ∨ a.type = TypeName.FLOAT64_TYPE)
    (ha : a.IsConstant = true) (hb : b.IsConstant = true) :
    ∃ lt le gt ge : Bool,
      a.IsConstantSLT cfg fops b = Outcome.returned lt ∧
      a.IsConstantULT cfg fops b = Outcome.returned lt ∧
      a.IsConstantSLE cfg fops b = Outcome.returned le ∧
      a.IsConstantULE cfg fops b = Outcome.returned le ∧
      a.IsConstantSGT cfg fops b = Outcome.returned gt ∧
      a.IsConstantUGT cfg fops b = Outcome.returned gt ∧
      a.IsConstantSGE cfg fops b = Outcome.returned ge ∧
      a.IsConstantUGE cfg fops b = Outcome.returned ge := by
  unfold Value.IsConstantSLT Value.IsConstantULT Value.IsConstantSLE Value.IsConstantULE
    Value.IsConstantSGT Value.IsConstantUGT Value.IsConstantSGE Value.IsConstantUGE
  simp only [constant_flags_ok cfg a b _ ha hb]
  rcases hty with h | h <;> rw [h] <;> exact ⟨_, _, _, _, rfl, rfl, rfl, rfl, rfl, rfl, rfl, rfl⟩

/-- C11 at the 32 bit float constants with bit patterns 5 and 7. -/
theorem C11_float_unsigned_is_signed_witness :
    ((floatConst 5).type = TypeName.FLOAT32_TYPE ∧ (floatConst 5).IsConstant = true ∧
      (floatConst 7).IsConstant = true) ∧
    ∃ lt le gt ge : Bool,
      (floatConst 5).IsConstantSLT debugConfig exampleFloatOps (floatConst 7) =
        Outcome.returned lt ∧
      (floatConst 5).IsConstantULT debugConfig exampleFloatOps (floatConst 7) =
        Outcome.returned lt ∧
      (floatConst 5).IsConstantSLE debugConfig exampleFloatOps (floatConst 7) =
        Outcome.returned le ∧
      (floatConst 5).IsConstantULE debugConfig exampleFloatOps (floatConst 7) =
        Outcome.returned le ∧
      (floatConst 5).IsConstantSGT debugConfig exampleFloatOps (floatConst 7) =
        Outcome.returned gt ∧
      (floatConst 5).IsConstantUGT debugConfig exampleFloatOps (floatConst 7) =
        Outcome.returned gt ∧
      (floatConst 5).IsConstantSGE debugConfig exampleFloatOps (floatConst 7) =
        Outcome.returned ge ∧
      (floatConst 5).IsConstantUGE debugConfig exampleFloatOps (floatConst 7) =
        Outcome.returned ge :=
  ⟨by decide,
    C11_float_unsigned_is_signed debugConfig exampleFloatOps (floatConst 5) (floatConst 7)
      (Or.inl (by decide)) (by decide) (by decide)⟩

/-- C12 (the code at the failing inputs): a value whose payload held 256 (resp. 65536,
4294967296) and is then set with `set_constant` to the 8 (resp. 16, 32) bit integer 0
keeps the old upper bits, so `IsConstantZero()` and `IsConstantFalse()` are false and
`IsConstantTrue()` is true although the literal is 0; `get_constant` does return 0. -/
theorem C12_narrow_zero_on_stale_payload :
    (((int64Const 256).set_constant_int8 0).get_constant_int8 = 0 ∧
      ((int64Const 256).set_constant_int8 0).IsConstantZero = false ∧
      ((int64Const 256).set_constant_int8 0).IsConstantFalse releaseConfig =
        Outcome.returned false ∧
      ((int64Const 256).set_constant_int8 0).IsConstantTrue releaseConfig =
        Outcome.returned true) ∧
    (((int64Const 65536).set_constant_int16 0).get_constant_int16 = 0 ∧
      ((int64Const 65536).set_constant_int16 0).IsConstantZero = false) ∧
    (((int64Const 4294967296).set_constant_int32 0).get_constant_int32 = 0 ∧
      ((int64Const 4294967296).set_constant_int32 0).IsConstantZero = false) := by
  decide

/-- C13 (the code at the failing input): two values both set to the 8 bit integer 5, one
of which held the 64 bit constant 256 before, are reported different by `IsConstantEQ` and
`IsConstantNE`, although both read back as 5. -/
theorem C13_equal_narrow_constants_on_stale_payload :
    (((int64Const 256).set_constant_int8 5).get_constant_int8 = 5 ∧
      ((int64Const 0).set_constant_int8 5).get_constant_int8 = 5) ∧
    ((int64Const 256).set_constant_int8 5).IsConstantEQ releaseConfig
        ((int64Const 0).set_constant_int8 5) = Outcome.returned false ∧
    ((int64Const 256).set_constant_int8 5).IsConstantNE releaseConfig
        ((int64Const 0).set_constant_int8 5) = Outcome.returned true := by
  decide

/-- C14 fails as stated: `set_from` with a source that carries `VALUE_IS_ALLOCATED` sets
the flag on a value that had it clear. -/
theorem C14_set_from_copies_allocated_flag :
    (mkValue 0 []).flags &&& VALUE_IS_ALLOCATED = 0 ∧
    ((mkValue 0 []).set_from allocatedValue).flags &&& VALUE_IS_ALLOCATED ≠ 0 := by
  decide

/-- C14, amended: for every value `v` with `VALUE_IS_ALLOCATED` clear, the flag is still
clear after `set_zero` and after every `set_constant` overload, and it is clear after
`set_from(other)` whenever it is clear on `other`. -/
theorem C14_allocated_flag_stays_clear (v other : Value) (t : TypeName) (x : Int)
    (n low high : Nat) (h : v.flags &&& VALUE_IS_ALLOCATED = 0) :
    (v.set_zero t).flags &&& VALUE_IS_ALLOCATED = 0 ∧
    (v.set_constant_int8 x).flags &&& VALUE_IS_ALLOCATED = 0 ∧
    (v.set_constant_uint8 n).flags &&& VALUE_IS_ALLOCATED = 0 ∧
    (v.set_constant_int16 x).flags &&& VALUE_IS_ALLOCATED = 0 ∧
    (v.set_constant_uint16 n).flags &&& VALUE_IS_ALLOCATED = 0 ∧
    (v.set_constant_int32 x).flags &&& VALUE_IS_ALLOCATED = 0 ∧
    (v.set_constant_uint32 n).flags &&& VALUE_IS_ALLOCATED = 0 ∧
    (v.set_constant_int64 x).flags &&& VALUE_IS_ALLOCATED = 0 ∧
    (v.set_constant_uint64 n).flags &&& VALUE_IS_ALLOCATED = 0 ∧
    (v.set_constant_float n).flags &&& VALUE_IS_ALLOCATED = 0 ∧
    (v.set_constant_double n).flags &&& VALUE_IS_ALLOCATED = 0 ∧
    (v.set_constant_vec128 low high).flags &&& VALUE_IS_ALLOCATED = 0 ∧
    (other.flags &&& VALUE_IS_ALLOCATED = 0 →
      (v.set_from other).flags &&& VALUE_IS_ALLOCATED = 0) := by
  have hk : (v.flags ||| VALUE_IS_CONSTANT) &&& VALUE_IS_ALLOCATED = 0 := by
    rw [or_constant_keeps_allocated]; exact h
  exact ⟨hk, hk, hk, hk, hk, hk, hk, hk, hk, hk, hk, hk, fun ho => ho⟩

/-- C14, amended, at a fresh value, with a source that has the flag clear. -/
theorem C14_allocated_flag_stays_clear_witness :
    ((mkValue 0 []).flags &&& VALUE_IS_ALLOCATED = 0 ∧
      (int32Const 3).flags &&& VALUE_IS_ALLOCATED = 0) ∧
    ((mkValue 0 []).set_constant_int8 (-1)).flags &&& VALUE_IS_ALLOCATED = 0 ∧
    ((mkValue 0 []).set_from (int32Const 3)).flags &&& VALUE_IS_ALLOCATED = 0 :=
  ⟨by decide,
    (C14_allocated_flag_stays_clear (mkValue 0 []) (int32Const 3) TypeName.INT8_TYPE (-1)
      0 0 0 (by decide)).2.1,
    (C14_allocated_flag_stays_clear (mkValue 0 []) (int32Const 3) TypeName.INT8_TYPE (-1)
      0 0 0 (by decide)).2.2.2.2.2.2.2.2.2.2.2.2 (by decide)⟩

/-- C15: after `v.set_from(other)` the type, the flags and the whole payload of `v` are
those of `other`, so every `get_constant` overload and every predicate gives on `v` what it
gives on `other`; the ordinal, `def`, the use list, `last_use`, `local_slot`, `reg` and
`tag` of `v` are unchanged.  `other` is only read; when `v` is `other` itself the call
changes nothing. -/
theorem C15_set_from_snapshot (cfg : Config) (fops : FloatOps) (v other arg : Value) :
    ((v.set_from other).type = other.type ∧ (v.set_from other).flags = other.flags ∧
      (v.set_from other).constant = other.constant) ∧
    ((v.set_from other).get_constant_int8 = other.get_constant_int8 ∧
      (v.set_from other).get_constant_int16 = other.get_constant_int16 ∧
      (v.set_from other).get_constant_int32 = other.get_constant_int32 ∧
      (v.set_from other).get_constant_int64 = other.get_constant_int64 ∧
      (v.set_from other).get_constant_float = other.get_constant_float ∧
      (v.set_from other).get_constant_double = other.get_constant_double ∧
      (v.set_from other).get_constant_vec128 = other.get_constant_vec128) ∧
    ((v.set_from other).IsConstant = other.IsConstant ∧
      (v.set_from other).IsConstantTrue cfg = other.IsConstantTrue cfg ∧
      (v.set_from other).IsConstantFalse cfg = other.IsConstantFalse cfg ∧
      (v.set_from other).IsConstantZero = other.IsConstantZero ∧
      (v.set_from other).IsConstantEQ cfg arg = other.IsConstantEQ cfg arg ∧
      (v.set_from other).IsConstantNE cfg arg = other.IsConstantNE cfg arg) ∧
    ((v.set_from other).IsConstantSLT cfg fops arg = other.IsConstantSLT cfg fops arg ∧
      (v.set_from other).IsConstantSLE cfg fops arg = other.IsConstantSLE cfg fops arg ∧
      (v.set_from other).IsConstantSGT cfg fops arg = other.IsConstantSGT cfg fops arg ∧
      (v.set_from other).IsConstantSGE cfg fops arg = other.IsConstantSGE cfg fops arg ∧
      (v.set_from other).IsConstantULT cfg fops arg = other.IsConstantULT cfg fops arg ∧
      (v.set_from other).IsConstantULE cfg fops arg = other.IsConstantULE cfg fops arg ∧
      (v.set_from other).IsConstantUGT cfg fops arg = other.IsConstantUGT cfg fops arg ∧
      (v.set_from other).IsConstantUGE cfg fops arg = other.IsConstantUGE cfg fops arg) ∧
    ((v.set_from other).ordinal = v.ordinal ∧ (v.set_from other).def_ = v.def_ ∧
      (v.set_from other).use_head = v.use_head ∧ (v.set_from other).last_use = v.last_use ∧
      (v.set_from other).local_slot = v.local_slot ∧ (v.set_from other).reg = v.reg ∧
      (v.set_from other).tag = v.tag) ∧
    other.set_from other = other := by
  refine ⟨⟨rfl, rfl, rfl⟩, ⟨rfl, rfl, rfl, rfl, rfl, rfl, rfl⟩,
    ⟨rfl, rfl, rfl, rfl, rfl, rfl⟩, ⟨rfl, rfl, rfl, rfl, rfl, rfl, rfl, rfl⟩,
    ⟨rfl, rfl, rfl, rfl, rfl, rfl, rfl⟩, rfl⟩

/-- C16: for every value `v`, whatever its prior state, and every type `t`: after
`v.set_zero(t)` the type is `t`, `IsConstant()` and `IsConstantZero()` are true; and when
`t` is not the vector type, `IsConstantFalse()` returns true and `IsConstantTrue()`
returns false. -/
theorem C16_set_zero (cfg : Config) (v : Value) (t : TypeName) :
    (v.set_zero t).type = t ∧ (v.set_zero t).IsConstant = true ∧
    (v.set_zero t).IsConstantZero = true ∧
    (t ≠ TypeName.VEC128_TYPE →
      (v.set_zero t).IsConstantFalse cfg = Outcome.returned true ∧
      (v.set_zero t).IsConstantTrue cfg = Outcome.returned false) := by
  have hflag : ((v.flags ||| VALUE_IS_CONSTANT) &&& VALUE_IS_CONSTANT != 0) = true := by
    simpa using or_constant_flag v.flags
  have hi64 : ({ low := 0, high := 0 } : ConstantValue).i64 = 0 := by decide
  refine ⟨rfl, hflag, ?_, ?_⟩
  · unfold Value.IsConstantZero
    by_cases ht : t = TypeName.VEC128_TYPE
    · simp [Value.set_zero, ht, hflag, ConstantValue.v128_low, ConstantValue.v128_high]
    · simp [Value.set_zero, ht, hflag, hi64]
  · intro ht
    simp [Value.IsConstantFalse, Value.IsConstantTrue, Value.set_zero, ht, hflag, hi64]

/-- C16 at a value that held the vector constant (2 ^ 64 - 1, 7), zeroed as INT8 and as
VEC128. -/
theorem C16_set_zero_witness :
    TypeName.INT8_TYPE ≠ TypeName.VEC128_TYPE ∧
    ((vecConst 18446744073709551615 7).set_zero TypeName.INT8_TYPE).IsConstantFalse
      debugConfig = Outcome.returned true ∧
    ((vecConst 18446744073709551615 7).set_zero TypeName.INT8_TYPE).IsConstantTrue
      debugConfig = Outcome.returned false ∧
    ((vecConst 18446744073709551615 7).set_zero TypeName.VEC128_TYPE).IsConstantZero = true :=
  ⟨by decide,
    ((C16_set_zero debugConfig (vecConst 18446744073709551615 7)
      TypeName.INT8_TYPE).2.2.2 (by decide)).1,
    ((C16_set_zero debugConfig (vecConst 18446744073709551615 7)
      TypeName.INT8_TYPE).2.2.2 (by decide)).2,
    (C16_set_zero debugConfig (vecConst 18446744073709551615 7)
      TypeName.VEC128_TYPE).2.2.1⟩

/-! ## Independence of the validator from operands and metadata: claim C17 -/

theorem assert_true_congr {α : Type} (cfg cfg2 : Config) (expr : Bool) (rest : Outcome α)
    (hcfg : cfg2.assert_aborts = cfg.assert_aborts) :
    assert_true cfg2 expr rest = assert_true cfg expr rest := by
  simp [assert_true, hcfg]

theorem uses_congr (cfg cfg2 : Config) (g g2 : HIRBuilder) (block : Ptr) (us : List Use)
    (rest : Outcome Nat) (hcfg : cfg2.assert_aborts = cfg.assert_aborts)
    (hinstr : ∀ i, (g2.instr i).block = (g.instr i).block) :
    ValidateInstruction.uses cfg2 g2 block us rest =
      ValidateInstruction.uses cfg g block us rest := by
  induction us with
  | nil => rfl
  | cons u us ih =>
    simp only [ValidateInstruction.uses, hinstr, ih]
    exact assert_true_congr cfg cfg2 _ _ hcfg

theorem ValidateInstruction_congr (cfg cfg2 : Config) (g g2 : HIRBuilder) (block instr : Ptr)
    (hcfg : cfg2.assert_aborts = cfg.assert_aborts)
    (hinstr : ∀ i, (g2.instr i).block = (g.instr i).block ∧ (g2.instr i).dest = (g.instr i).dest)
    (hvalue : ∀ p, (g2.value p).def_ = (g.value p).def_ ∧
      (g2.value p).use_head = (g.value p).use_head) :
    ValidateInstruction cfg2 g2 block instr = ValidateInstruction cfg g block instr := by
  unfold ValidateInstruction ValidateInstruction.dest
  simp only [operand_eq, (hinstr _).1, (hinstr _).2, (hvalue _).1, (hvalue _).2,
    uses_congr cfg cfg2 g g2 block _ _ hcfg (fun i => (hinstr i).1),
    assert_true_congr cfg cfg2 _ _ hcfg]

theorem instrs_congr (cfg cfg2 : Config) (g g2 : HIRBuilder) (block : Ptr) (is : List Ptr)
    (rest : Outcome Nat)
    (h : ∀ i, ValidateInstruction cfg2 g2 block i = ValidateInstruction cfg g block i) :
    Run.instrs cfg2 g2 block is rest = Run.instrs cfg g block is rest := by
  induction is with
  | nil => rfl
  | cons i is ih => simp only [Run.instrs, h, ih]

theorem labels_congr (cfg cfg2 : Config) (g g2 : HIRBuilder) (block : Ptr) (ls : List Ptr)
    (rest : Outcome Nat) (hcfg : cfg2.assert_aborts = cfg.assert_aborts)
    (hlabel : g2.label = g.label) :
    Run.labels cfg2 g2 block ls rest = Run.labels cfg g block ls rest := by
  induction ls with
  | nil => rfl
  | cons l ls ih =>
    simp only [Run.labels, hlabel, ih]
    exact assert_true_congr cfg cfg2 _ _ hcfg

/-- C17: `ValidateValue` returns 0 on every input, and the outcome of `Run` is the same
on any two graphs that agree on the block chain, the blocks, the labels, the `block` and
`dest` of every instruction and the `def` and use list of every value: it depends neither
on the operands `src1`, `src2`, `src3`, nor on the opcode signatures and their decoding,
nor on `last_use` and `local_slot`. -/
theorem C17_run_ignores_operands_and_metadata (cfg cfg2 : Config) (g g2 : HIRBuilder)
    (block instr value : Ptr)
    (hcfg : cfg2.assert_aborts = cfg.assert_aborts)
    (hchain : g2.first_block = g.first_block) (hblock : g2.block = g.block)
    (hlabel : g2.label = g.label)
    (hinstr : ∀ i, (g2.instr i).block = (g.instr i).block ∧ (g2.instr i).dest = (g.instr i).dest)
    (hvalue : ∀ p, (g2.value p).def_ = (g.value p).def_ ∧
      (g2.value p).use_head = (g.value p).use_head) :
    ValidateValue cfg g block instr value = Outcome.returned 0 ∧
    Run cfg2 g2 = Run cfg g := by
  refine ⟨rfl, ?_⟩
  unfold Run
  rw [hchain]
  induction g.first_block with
  | nil => rfl
  | cons b bs ih =>
    simp only [Run.blocks, hblock, ih]
    rw [labels_congr cfg cfg2 g g2 b _ _ hcfg hlabel,
      instrs_congr cfg cfg2 g g2 b _ _
        (fun i => ValidateInstruction_congr cfg cfg2 g g2 b i hcfg hinstr hvalue)]

/-- C17 at the example graph and its variant with other operands, another signature and
backend metadata on value 100. -/
theorem C17_run_ignores_operands_and_metadata_witness :
    (exOtherOperands.instr 11 ≠ exampleGraph.instr 11 ∧
      exOtherOperands.value 100 ≠ exampleGraph.value 100) ∧
    Run debugConfig exOtherOperands = Run debugConfig exampleGraph :=
  ⟨by decide,
    (C17_run_ignores_operands_and_metadata debugConfig debugConfig exampleGraph
      exOtherOperands 0 0 0 rfl rfl rfl rfl
      (fun i => by
        unfold exOtherOperands
        by_cases h : i = 11
        · subst h; exact ⟨rfl, rfl⟩
        · simp [h])
      (fun p => by
        unfold exOtherOperands
        by_cases h : p = 100
        · subst h; exact ⟨rfl, rfl⟩
        · simp [h])).2⟩

/-! ## Type sizes: claim C18 -/

/-- C18 fails as stated: `INT64_TYPE` precedes `FLOAT32_TYPE` in the enum, yet its size
is 8 and that of `FLOAT32_TYPE` is 4. -/
theorem C18_int64_before_float32 :
    TypeName.INT64_TYPE.ordinal ≤ TypeName.FLOAT32_TYPE.ordinal ∧
    GetTypeSize releaseConfig TypeName.INT64_TYPE = Outcome.returned 8 ∧
    GetTypeSize releaseConfig TypeName.FLOAT32_TYPE = Outcome.returned 4 ∧
    ¬ (8 ≤ 4) := by
  decide

/-- C18, amended: for every pair of types `t1`, `t2` among the seven, other than the pair
`INT64_TYPE`, `FLOAT32_TYPE`: if the ordinal of `t1` is at most the ordinal of `t2` then
`GetTypeSize(t1) <= GetTypeSize(t2)`. -/
theorem C18_size_monotone_except_int64_float32 (cfg : Config) (t1 t2 : TypeName)
    (h1 : t1 ≠ TypeName.MAX_TYPENAME) (h2 : t2 ≠ TypeName.MAX_TYPENAME)
    (hex : ¬ (t1 = TypeName.INT64_TYPE ∧ t2 = TypeName.FLOAT32_TYPE))
    (hord : t1.ordinal ≤ t2.ordinal) :
    ∃ s1 s2 : Nat, GetTypeSize cfg t1 = Outcome.returned s1 ∧
      GetTypeSize cfg t2 = Outcome.returned s2 ∧ s1 ≤ s2 := by
  cases t1 <;> cases t2 <;>
    simp_all [GetTypeSize, TypeName.ordinal]

/-- C18, amended, at the pair `INT32_TYPE`, `FLOAT32_TYPE`. -/
theorem C18_size_monotone_except_int64_float32_witness :
    (TypeName.INT32_TYPE ≠ TypeName.MAX_TYPENAME ∧
      TypeName.FLOAT32_TYPE ≠ TypeName.MAX_TYPENAME ∧
      ¬ (TypeName.INT32_TYPE = TypeName.INT64_TYPE ∧
        TypeName.FLOAT32_TYPE = TypeName.FLOAT32_TYPE) ∧
      TypeName.INT32_TYPE.ordinal ≤ TypeName.FLOAT32_TYPE.ordinal) ∧
    ∃ s1 s2 : Nat, GetTypeSize debugConfig TypeName.INT32_TYPE = Outcome.returned s1 ∧
      GetTypeSize debugConfig TypeName.FLOAT32_TYPE = Outcome.returned s2 ∧ s1 ≤ s2 :=
  ⟨by decide,
    C18_size_monotone_except_int64_float32 debugConfig TypeName.INT32_TYPE
      TypeName.FLOAT32_TYPE (by decide) (by decide) (by decide) (by decide)⟩

/-! ## Consistency of the predicates and comparisons: claims C19 and C20 -/

theorem vector_guard_skip {α : Type} (cfg : Config) (v : Value) (rest : Outcome α)
    (hty : v.type ≠ TypeName.VEC128_TYPE) :
    (if v.type = TypeName.VEC128_TYPE then assert_always cfg else id) rest = rest := by
  simp [hty]

/-- C19: for a receiver `a` that is not vector typed: when `a` and `b` both carry
`VALUE_IS_CONSTANT`, exactly one of `IsConstantEQ(b)`, `IsConstantNE(b)` returns true and
exactly one of `IsConstantTrue()`, `IsConstantFalse()` returns true; when `a` is not
constant, `IsConstantTrue`, `IsConstantFalse`, `IsConstantZero`, `IsConstantEQ` and
`IsConstantNE` are all false; when `b` is not constant, `IsConstantEQ` and
`IsConstantNE` are both false. -/
theorem C19_predicates_partition (cfg : Config) (a b : Value)
    (hty : a.type ≠ TypeName.VEC128_TYPE) :
    (a.IsConstant = true → b.IsConstant = true →
      ∃ eq ne tr fa : Bool,
        a.IsConstantEQ cfg b = Outcome.returned eq ∧
        a.IsConstantNE cfg b = Outcome.returned ne ∧ (eq != ne) = true ∧
        a.IsConstantTrue cfg = Outcome.returned tr ∧
        a.IsConstantFalse cfg = Outcome.returned fa ∧ (tr != fa) = true) ∧
    (a.IsConstant = false →
      a.IsConstantTrue cfg = Outcome.returned false ∧
      a.IsConstantFalse cfg = Outcome.returned false ∧
      a.IsConstantZero = false ∧
      a.IsConstantEQ cfg b = Outcome.returned false ∧
      a.IsConstantNE cfg b = Outcome.returned false) ∧
    (b.IsConstant = false →
      a.IsConstantEQ cfg b = Outcome.returned false ∧
      a.IsConstantNE cfg b = Outcome.returned false) := by
  unfold Value.IsConstantEQ Value.IsConstantNE Value.IsConstantTrue Value.IsConstantFalse
    Value.IsConstantZero Value.IsConstant
  simp only [vector_guard_skip cfg a _ hty, if_neg hty]
  refine ⟨?_, ?_, ?_⟩
  · intro ha hb
    rw [ha, hb]
    refine ⟨_, _, _, _, rfl, rfl, ?_, rfl, rfl, ?_⟩
    · simp only [bne]
      generalize (a.constant.i64 == b.constant.i64) = c
      cases c <;> rfl
    · simp only [bne]
      generalize (a.constant.i64 == 0) = c
      cases c <;> rfl
  · intro ha
    rw [ha]
    simp
  · intro hb
    rw [hb]
    simp

/-- C19 at the 32 bit constants 3 and 4, and at a fresh symbolic value. -/
theorem C19_predicates_partition_witness :
    ((int32Const 3).type ≠ TypeName.VEC128_TYPE ∧ (int32Const 3).IsConstant = true ∧
      (int32Const 4).IsConstant = true ∧ (mkValue 0 []).type ≠ TypeName.VEC128_TYPE ∧
      (mkValue 0 []).IsConstant = false) ∧
    (∃ eq ne tr fa : Bool,
      (int32Const 3).IsConstantEQ debugConfig (int32Const 4) = Outcome.returned eq ∧
      (int32Const 3).IsConstantNE debugConfig (int32Const 4) = Outcome.returned ne ∧
      (eq != ne) = true ∧
      (int32Const 3).IsConstantTrue debugConfig = Outcome.returned tr ∧
      (int32Const 3).IsConstantFalse debugConfig = Outcome.returned fa ∧
      (tr != fa) = true) ∧
    (mkValue 0 []).IsConstantZero = false :=
  ⟨by decide,
    (C19_predicates_partition debugConfig (int32Const 3) (int32Const 4) (by decide)).1
      (by decide) (by decide),
    ((C19_predicates_partition debugConfig (mkValue 0 []) (int32Const 4) (by decide)).2.1
      (by decide)).2.2.1⟩

theorem asSigned_inj (w p q : Nat) (hw : w = 8 ∨ w = 16 ∨ w = 32 ∨ w = 64)
    (hp : p < 2 ^ w) (hq : q < 2 ^ w) (h : asSigned w p = asSigned w q) : p = q := by
  rw [← toUnsigned_asSigned w p hw hp, ← toUnsigned_asSigned w q hw hq, h]

theorem signed_ge_eq_not_lt (x y : Int) : decide (x ≥ y) = !decide (x < y) := by
  by_cases h : x < y
  · have h2 : ¬ x ≥ y := by omega
    simp [h, h2]
  · have h2 : x ≥ y := by omega
    simp [h, h2]

theorem unsigned_ge_eq_not_lt (x y : Nat) : decide (x ≥ y) = !decide (x < y) := by
  by_cases h : x < y
  · have h2 : ¬ x ≥ y := by omega
    simp [h, h2]
  · have h2 : x ≥ y := by omega
    simp [h, h2]

theorem signed_le_both (w p q : Nat) (hw : w = 8 ∨ w = 16 ∨ w = 32 ∨ w = 64) :
    (Outcome.returned (decide (asSigned w (p % 2 ^ w) ≤ asSigned w (q % 2 ^ w))) =
        Outcome.returned true ∧
      Outcome.returned (decide (asSigned w (q % 2 ^ w) ≤ asSigned w (p % 2 ^ w))) =
        Outcome.returned true) ↔ p % 2 ^ w = q % 2 ^ w := by
  constructor
  · rintro ⟨h1, h2⟩
    have h1' : asSigned w (p % 2 ^ w) ≤ asSigned w (q % 2 ^ w) := by simpa using h1
    have h2' : asSigned w (q % 2 ^ w) ≤ asSigned w (p % 2 ^ w) := by simpa using h2
    exact asSigned_inj w _ _ hw (pattern_lt w p hw) (pattern_lt w q hw)
      (le_antisymm h1' h2')
  · intro h
    rw [h]
    simp

/-- C20: for constants `a`, `b` of the same integer type (of width `w`), with the values
returned by the comparisons: SGE is the negation of SLT, SLE the negation of SGT, and
SGT of `a`, `b` is SLT of `b`, `a`; likewise UGE, ULE, UGT against ULT; and SLE holds in
both directions exactly when the `w` bit patterns of `a` and `b` are equal. -/
theorem C20_ordered_comparisons_consistent (cfg : Config) (fops : FloatOps) (a b : Value)
    (w : Nat) (hw : integerWidth a.type = some w) (hty : b.type = a.type)
    (ha : a.IsConstant = true) (hb : b.IsConstant = true) :
    (∃ slt sgt ult ugt : Bool,
      (a.IsConstantSLT cfg fops b = Outcome.returned slt ∧
        a.IsConstantSGT cfg fops b = Outcome.returned sgt ∧
        a.IsConstantSGE cfg fops b = Outcome.returned (!slt) ∧
        a.IsConstantSLE cfg fops b = Outcome.returned (!sgt) ∧
        b.IsConstantSLT cfg fops a = Outcome.returned sgt) ∧
      (a.IsConstantULT cfg fops b = Outcome.returned ult ∧
        a.IsConstantUGT cfg fops b = Outcome.returned ugt ∧
        a.IsConstantUGE cfg fops b = Outcome.returned (!ult) ∧
        a.IsConstantULE cfg fops b = Outcome.returned (!ugt) ∧
        b.IsConstantULT cfg fops a = Outcome.returned ugt)) ∧
    ((a.IsConstantSLE cfg fops b = Outcome.returned true ∧
        b.IsConstantSLE cfg fops a = Outcome.returned true) ↔
      bitPattern w a = bitPattern w b) := by
  unfold Value.IsConstantSLT Value.IsConstantSGT Value.IsConstantSGE Value.IsConstantSLE
    Value.IsConstantULT Value.IsConstantUGT Value.IsConstantUGE Value.IsConstantULE
  simp only [constant_flags_ok cfg a b _ ha hb, constant_flags_ok cfg b a _ hb ha, hty]
  unfold bitPattern
  cases hta : a.type <;> rw [hta] at hw <;> simp only [integerWidth] at hw <;> cases hw <;>
    dsimp only [ConstantValue.i8, ConstantValue.i16, ConstantValue.i32, ConstantValue.i64] <;>
    refine ⟨⟨_, _, _, _, ⟨rfl, rfl, ?_, ?_, rfl⟩, ⟨rfl, rfl, ?_, ?_, rfl⟩⟩,
      signed_le_both _ _ _ (by decide)⟩ <;>
    first
    | exact congrArg Outcome.returned (signed_ge_eq_not_lt _ _)
    | exact congrArg Outcome.returned (unsigned_ge_eq_not_lt _ _)

/-- C20 at the 32 bit constants -1 and 1. -/
theorem C20_ordered_comparisons_consistent_witness :
    (integerWidth (int32Const (-1)).type = some 32 ∧
      (int32Const 1).type = (int32Const (-1)).type ∧
      (int32Const (-1)).IsConstant = true ∧ (int32Const 1).IsConstant = true) ∧
    ((int32Const (-1)).IsConstantSLE debugConfig exampleFloatOps (int32Const 1) =
        Outcome.returned true ∧
      (int32Const 1).IsConstantSLE debugConfig exampleFloatOps (int32Const (-1)) =
        Outcome.returned true ↔
      bitPattern 32 (int32Const (-1)) = bitPattern 32 (int32Const 1)) :=
  ⟨by decide,
    (C20_ordered_comparisons_consistent debugConfig exampleFloatOps (int32Const (-1))
      (int32Const 1) 32 (by decide) (by decide) (by decide) (by decide)).2⟩

end Xenia
